import Mathlib

/-!
# Homie chat front end: `static/js/chat.js`

A shallow embedding of the browser script.  The script's global variables and the
parts of the page it reads and writes are the fields of `State`; every function of
the script is a function on `State`, on its music part `MusicState`, or on the
journal and reminder forms `Panels`.  `sendMessage` is an `async` function: the code
between two suspension points runs atomically on the event loop, so it is split at its
`await`s and at its `setTimeout` into

* `sendMessage`   (entry, up to the first `fetch`),
* `uploadSettled` (resumption after `await uploadAndAnalyzeMedia(..)`),
* `chatSettled`   (resumption after `await fetch('/api/chat')` / `await response.json()`),
* `fireTimer`     (a `setTimeout` callback runs).

Suspended frames are kept in the state (`uploads`, `chats`, `timers`) together with the
locals they have captured.  Nothing in the model restricts how many frames exist: that at
most one does is a theorem about the `isTyping` guard.

Typing assumptions (section 6 of the specification): backend payloads are JSON objects
whose fields, when present, have the documented types; a body that is not JSON is a
thrown error.  `Date.now()` is an integer number of milliseconds supplied by the
environment with each event.  Numbers are idealised: finite doubles are rationals, and
the quotient of logarithms in `formatFileSize` is the exact logarithm.
-/

namespace Homie

/-! ## JavaScript strings -/

/-- Code points stripped by `String.prototype.trim` (WhiteSpace and LineTerminator). -/
def isJsWhitespace (c : Char) : Bool :=
  let n := c.toNat
  n == 0x09 || n == 0x0A || n == 0x0B || n == 0x0C || n == 0x0D || n == 0x20 ||
  n == 0xA0 || n == 0x1680 || (0x2000 ≤ n && n ≤ 0x200A) || n == 0x2028 ||
  n == 0x2029 || n == 0x202F || n == 0x205F || n == 0x3000 || n == 0xFEFF

/-- Trimming of a list of code points at both ends. -/
def trimChars (l : List Char) : List Char :=
  ((l.dropWhile isJsWhitespace).reverse.dropWhile isJsWhitespace).reverse

/-- The method `s.trim()`. -/
def jsTrim (s : String) : String := String.mk (trimChars s.data)

/-- The expression `s || d` on strings: the empty string is falsy. -/
def strOr (s d : String) : String := if s = "" then d else s

/-- The expression `v || d` where `v` is a string, `null` or `undefined`. -/
def optOr (v : Option String) (d : String) : String :=
  match v with
  | some s => strOr s d
  | none => d

/-- Truthiness of a value that is a string, `null` or `undefined`. -/
def truthy (v : Option String) : Bool :=
  match v with
  | some s => s != ""
  | none => false

/-- The test `content && content.trim()` of `addMessage` and of the response check. -/
def hasText (content : Option String) : Bool :=
  match content with
  | some c => c != "" && jsTrim c != ""
  | none => false

/-! ## JavaScript numbers -/

/-- Number values.  Finite doubles are idealised as rationals: rounding to the nearest
double and the sign of zero are not modelled. -/
inductive JSNum
  | nan
  | inf (negative : Bool)
  | num (q : ℚ)
  deriving DecidableEq, Repr

/-- The value of a run of decimal digits. -/
def digitsValue (ds : List Char) : Nat := ds.foldl (fun n c => 10 * n + (c.toNat - 48)) 0

/-- The value of a hexadecimal digit, if the character is one. -/
def hexDigitValue (c : Char) : Option Nat :=
  if c.isDigit then some (c.toNat - 48)
  else if 97 ≤ c.toNat ∧ c.toNat ≤ 102 then some (c.toNat - 87)
  else if 65 ≤ c.toNat ∧ c.toNat ≤ 70 then some (c.toNat - 55)
  else none

/-- The values of the longest run of hexadecimal digits at the start. -/
def hexDigits : List Char → List Nat
  | [] => []
  | c :: rest =>
    match hexDigitValue c with
    | some d => d :: hexDigits rest
    | none => []

/-- An optional sign at the start: whether it is `-`, and what follows it. -/
def stripSign (l : List Char) : Bool × List Char :=
  if l.head? = some '-' then (true, l.tail)
  else if l.head? = some '+' then (false, l.tail)
  else (false, l)

/-- The exponent part `e±digits` at the start, 0 when there is none. -/
def exponentPart (l : List Char) : Int :=
  if l.head? = some 'e' ∨ l.head? = some 'E' then
    let signed := stripSign l.tail
    let ds := signed.2.takeWhile Char.isDigit
    if ds = [] then 0
    else if signed.1 then -(digitsValue ds : Int) else (digitsValue ds : Int)
  else 0

/-- The builtin `parseFloat(string)`: leading white space is skipped and the longest
prefix that is a decimal literal (sign, digits, fraction, exponent, or `Infinity`) is
read; `NaN` when there is none. -/
def parseFloat (s : String) : JSNum :=
  let signed := stripSign (s.data.dropWhile isJsWhitespace)
  let l := signed.2
  if "Infinity".data.isPrefixOf l then JSNum.inf signed.1
  else
    let intDigits := l.takeWhile Char.isDigit
    let afterInt := l.dropWhile Char.isDigit
    let hasDot : Bool := afterInt.head? = some '.'
    let fracDigits := if hasDot then afterInt.tail.takeWhile Char.isDigit else []
    let afterFrac := if hasDot then afterInt.tail.dropWhile Char.isDigit else afterInt
    if intDigits = [] ∧ fracDigits = [] then JSNum.nan
    else
      let e := exponentPart afterFrac
      let numerator : Int := ((digitsValue (intDigits ++ fracDigits) * 10 ^ e.toNat : Nat) : Int)
      let denominator : Nat := 10 ^ fracDigits.length * 10 ^ (-e).toNat
      JSNum.num (mkRat (if signed.1 then -numerator else numerator) denominator)

/-- The builtin `parseInt(string)` without a radix: leading white space is skipped, then
a sign, then hexadecimal digits after `0x` or `0X` and decimal digits otherwise; `NaN`
when there is no digit. -/
def parseInt (s : String) : JSNum :=
  let signed := stripSign (s.data.dropWhile isJsWhitespace)
  let l := signed.2
  if l.head? = some '0' ∧ (l.tail.head? = some 'x' ∨ l.tail.head? = some 'X') then
    let ds := hexDigits (l.drop 2)
    if ds = [] then JSNum.nan
    else
      let n : Int := ((ds.foldl (fun n d => 16 * n + d) 0 : Nat) : Int)
      JSNum.num (mkRat (if signed.1 then -n else n) 1)
  else
    let ds := l.takeWhile Char.isDigit
    if ds = [] then JSNum.nan
    else
      let n : Int := ((digitsValue ds : Nat) : Int)
      JSNum.num (mkRat (if signed.1 then -n else n) 1)

/-! ## Page content -/

/-- Children of a bubble's `message-content` element. -/
inductive ContentChild
  | mediaIndicator (text : String)
  | br
  | text (s : String)
  | html (markup : String)
  deriving DecidableEq, Repr

/-- A rendered message: the `div.message` built by `addMessage`. -/
structure Bubble where
  role : String
  avatar : String
  content : List ContentChild
  deriving DecidableEq, Repr

/-- Children of `#messagesContainer`. -/
inductive Node
  | welcome (heading body : String)
  | message (b : Bubble)
  | typing
  deriving DecidableEq, Repr

/-- A file picked in `#mediaInput`. -/
structure MediaFile where
  name : String
  type : String
  size : Nat
  deriving DecidableEq, Repr

/-- An entry of `/api/music-list`. -/
structure Track where
  id : Int
  name : String
  url : String
  deriving DecidableEq, Repr

/-- The method calls made on the `#backgroundMusic` element. -/
inductive AudioCall
  | load
  | play
  | pause
  deriving DecidableEq, Repr

/-- The object handed to `JSON.stringify` for `POST /api/user-music-preference`
(`JSON.stringify` writes `NaN` and the infinities as `null`). -/
structure PrefBody where
  music_enabled : Bool
  current_track : JSNum
  volume : JSNum
  deriving DecidableEq, Repr

/-- The JSON object answered by `GET /api/user-music-preference`; `current_track` may be
absent or null. -/
structure Preferences where
  music_enabled : Bool
  current_track : Option Int
  volume : ℚ
  deriving DecidableEq, Repr

/-- The music globals (lines 8-13), the `#backgroundMusic` element, the listeners the
script registers, the three music controls and the preference requests issued.  The
controls are `none` as long as the script has not written them. -/
structure MusicState where
  musicEnabled : Bool
  currentTrack : JSNum
  musicVolume : JSNum
  musicTracks : List Track
  musicInitialized : Bool
  audioSrc : String
  audioVolume : ℚ
  audioPaused : Bool
  audioCalls : List AudioCall
  audioListeners : Nat
  clickListener : Bool
  keypressListener : Bool
  toggleChecked : Option Bool
  trackSelectValue : Option JSNum
  volumeSliderValue : Option JSNum
  prefPosts : List PrefBody
  deriving DecidableEq, Repr

/-! ## Suspended work -/

/-- A pending `POST /api/upload-media` with the locals of the suspended `sendMessage`. -/
structure UploadReq where
  media : MediaFile
  formMessage : String
  message : String
  deriving DecidableEq, Repr

/-- The JSON body of `POST /api/chat`. -/
structure ChatBody where
  message : String
  media_analysis : Option String
  media_type : Option String
  deriving DecidableEq, Repr

/-- A pending `POST /api/chat` with the captured `startTime`. -/
structure ChatReq where
  body : ChatBody
  startTime : Int
  deriving DecidableEq, Repr

/-- The JSON object answered by `/api/chat`; `none` is an absent or `null` field. -/
structure ChatData where
  response : Option String
  mood : Option String
  safe_space_mode : Option Bool
  error : Option String
  deriving DecidableEq, Repr

/-- How the chat request ends: a parsed response (`response.ok`, body) or a throw. -/
inductive ChatOutcome
  | response (ok : Bool) (data : ChatData)
  | failure
  deriving DecidableEq, Repr

/-- How the upload ends: `{analysis, media_type}`, a non-OK `{error}`, or a throw. -/
inductive UploadOutcome
  | ok (analysis : Option String) (media_type : Option String)
  | httpError (error : Option String)
  | thrown (message : String)
  deriving DecidableEq, Repr

/-- The callbacks handed to `setTimeout`. -/
inductive TimerTask
  | delayedUpdate (outcome : ChatOutcome)
  | calmPrompt
  | hideVideo
  | pauseVideo
  deriving DecidableEq, Repr

/-- A pending timer. -/
structure Timer where
  id : Nat
  delay : Int
  task : TimerTask
  deriving DecidableEq, Repr

/-- An element of `/api/history`. -/
structure HistoryMsg where
  role : String
  content : Option String
  media_type : Option String
  deriving DecidableEq, Repr

/-! ## State -/

/-- Globals of `chat.js`, the page elements it touches, and the event loop. -/
structure State where
  isTyping : Bool
  videoTimeout : Option Nat
  currentMood : String
  safeModeActive : Option Bool
  music : MusicState
  selectedMedia : Option MediaFile
  mediaAnalysis : Option String
  mediaType : Option String
  container : List Node
  inputValue : String
  inputHeight : String
  inputFocused : Bool
  sendBtnDisabled : Bool
  mediaPreviewDisplay : String
  mediaPreviewIcon : String
  mediaPreviewName : String
  mediaPreviewSize : String
  mediaInputValue : String
  videoActive : Bool
  videoPlaying : Bool
  safeSpaceClass : Bool
  bodyFilter : String
  staticOpacity : String
  headerText : String
  headerColor : String
  headerMoodActive : Bool
  calmOverlays : Nat
  uploads : List UploadReq
  chats : List ChatReq
  timers : List Timer
  nextTimerId : Nat
  deriving DecidableEq, Repr

/-- Music globals as declared at lines 9-13, audio element untouched. -/
def MusicState.initial : MusicState :=
  { musicEnabled := true, currentTrack := JSNum.num 2, musicVolume := JSNum.num (mkRat 1 2),
    musicTracks := [], musicInitialized := false, audioSrc := "", audioVolume := 1,
    audioPaused := true, audioCalls := [], audioListeners := 0, clickListener := false,
    keypressListener := false, toggleChecked := none, trackSelectValue := none,
    volumeSliderValue := none, prefPosts := [] }

/-- The page right after the script has been evaluated. -/
def State.initial : State :=
  { isTyping := false, videoTimeout := none, currentMood := "neutral",
    safeModeActive := some false, music := MusicState.initial,
    selectedMedia := none, mediaAnalysis := none, mediaType := none,
    container := [Node.welcome "" ""], inputValue := "", inputHeight := "",
    inputFocused := false, sendBtnDisabled := false, mediaPreviewDisplay := "none",
    mediaPreviewIcon := "", mediaPreviewName := "", mediaPreviewSize := "",
    mediaInputValue := "",
    videoActive := false, videoPlaying := false, safeSpaceClass := false,
    bodyFilter := "", staticOpacity := "", headerText := "", headerColor := "",
    headerMoodActive := false, calmOverlays := 0, uploads := [], chats := [],
    timers := [], nextTimerId := 1 }

/-! ## Message rendering (lines 345-410) -/

/-- ASCII white space, which separates the names in a `class` attribute. -/
def isAsciiSpace (c : Char) : Bool :=
  c.toNat == 0x20 || c.toNat == 0x09 || c.toNat == 0x0A || c.toNat == 0x0C || c.toNat == 0x0D

/-- The class names in a `className` string: its maximal runs of characters other than
white space.  The second argument is the run being read, last character first. -/
def classTokens : List Char → List Char → List (List Char)
  | [], cur => if cur = [] then [] else [cur.reverse]
  | c :: rest, cur =>
    if isAsciiSpace c then
      (if cur = [] then classTokens rest [] else cur.reverse :: classTokens rest [])
    else classTokens rest (c :: cur)

/-- Whether an element with this `className` is matched by the selector `.name`. -/
def hasClass (className name : String) : Bool :=
  (classTokens className.data []).contains name.data

/-- Whether the selector `.welcome-message` matches a child of the container: the
welcome block does, and so does a bubble whose `className`, which is `message ` followed
by the role (line 351), names that class.  The typing indicator has the classes
`message assistant`, and no element inside a bubble or the indicator has the class. -/
def Node.matchesWelcome : Node → Bool
  | Node.welcome _ _ => true
  | Node.message b => hasClass ("message " ++ b.role) "welcome-message"
  | Node.typing => false

/-- The effect of `container.querySelector('.welcome-message')` followed by `remove()`:
the first matching element disappears. -/
def removeWelcome (c : List Node) : List Node := c.eraseP Node.matchesWelcome

/-- Whether the element `removeWelcome` takes away is a bubble. -/
def removesBubble (c : List Node) : Bool :=
  match c.find? Node.matchesWelcome with
  | some (Node.message _) => true
  | _ => false

/-- The effect of `hideTyping` on the container: `getElementById('typingIndicator')`
finds the first such element, which is removed. -/
def removeTyping : List Node → List Node
  | [] => []
  | Node.typing :: rest => rest
  | n :: rest => n :: removeTyping rest

/-- The children of `content_div` as `addMessage` leaves them (lines 360-376): assigning
`innerHTML` in the fallback branch replaces what was appended before. -/
def messageContent (content : Option String) (hasMedia : Bool)
    (mediaTypeStr : Option String) : List ContentChild :=
  let indicator : List ContentChild :=
    if hasMedia && truthy mediaTypeStr then
      [ContentChild.mediaIndicator
          (if mediaTypeStr = some "image" then "📷 Image shared" else "🎥 Video shared"),
        ContentChild.br]
    else []
  if hasText content then
    indicator ++ [ContentChild.text (content.getD "")]
  else
    [ContentChild.html "<em>Message could not be loaded</em>"]

/-- The function `addMessage(role, content, hasMedia, mediaTypeStr)`. -/
def addMessage (s : State) (role : String) (content : Option String)
    (hasMedia : Bool) (mediaTypeStr : Option String) : State :=
  let bubble : Bubble :=
    { role := role,
      avatar := if role = "user" then "👤" else "🏠",
      content := messageContent content hasMedia mediaTypeStr }
  { s with container := removeWelcome s.container ++ [Node.message bubble] }

/-- The function `showTyping()`. -/
def showTyping (s : State) : State :=
  { s with container := s.container ++ [Node.typing] }

/-- The function `hideTyping()`. -/
def hideTyping (s : State) : State :=
  { s with container := removeTyping s.container }

/-! ## Media selection (lines 29-59) -/

/-- The method `type.startsWith(p)`. -/
def jsStartsWith (s p : String) : Bool := p.data.isPrefixOf s.data

/-- The table `sizes` of `formatFileSize`. -/
def sizes : List String := ["Bytes", "KB", "MB", "GB"]

/-- How often `n` can be divided by 1024 before it drops below 1024, in at most `fuel`
divisions: the integer part of the logarithm of `n` to base 1024 when `n ≤ fuel`. -/
def log1024 : Nat → Nat → Nat
  | 0, _ => 0
  | fuel + 1, n => if n < 1024 then 0 else log1024 fuel (n / 1024) + 1

/-- The index `Math.floor(Math.log(bytes) / Math.log(k))` with `k = 1024`, for a positive
byte count.  The quotient of the two floating-point logarithms is idealised as the exact
logarithm to base 1024. -/
def unitIndex (bytes : Nat) : Nat := log1024 bytes bytes

/-- The integer `Math.round(bytes / Math.pow(k, i) * 100)`: the scaled value in
hundredths, halves rounded up. -/
def scaledHundredths (bytes i : Nat) : Nat := (2 * (bytes * 100) + 1024 ^ i) / (2 * 1024 ^ i)

/-- The text of the number `n / 100` as string concatenation prints it: no trailing
zeros, no decimal point for an integer. -/
def showHundredths (n : Nat) : String :=
  let whole := toString (n / 100)
  let frac := n % 100
  if frac = 0 then whole
  else if frac % 10 = 0 then whole ++ "." ++ toString (frac / 10)
  else if frac < 10 then whole ++ ".0" ++ toString frac
  else whole ++ "." ++ toString frac

/-- The function `formatFileSize(bytes)`; an index beyond the table reads `undefined`. -/
def formatFileSize (bytes : Nat) : String :=
  if bytes = 0 then "0 Bytes"
  else
    let i := unitIndex bytes
    showHundredths (scaledHundredths bytes i) ++ " " ++ (sizes[i]?).getD "undefined"

/-- The function `handleMediaSelect(event)`, with `event.target.files[0]` as argument. -/
def handleMediaSelect (s : State) (file : Option MediaFile) : State :=
  match file with
  | none => s
  | some f =>
    let s := { s with selectedMedia := some f }
    let s :=
      if jsStartsWith f.type "image/" then
        { s with mediaType := some "image", mediaPreviewIcon := "📷" }
      else if jsStartsWith f.type "video/" then
        { s with mediaType := some "video", mediaPreviewIcon := "🎥" }
      else s
    { s with mediaPreviewDisplay := "block", mediaPreviewName := f.name,
             mediaPreviewSize := formatFileSize f.size, inputFocused := true }

/-- The function `clearMediaSelection()`. -/
def clearMediaSelection (s : State) : State :=
  { s with selectedMedia := none, mediaAnalysis := none, mediaType := none,
           mediaPreviewDisplay := "none", mediaInputValue := "" }

/-! ## Timers and the video overlay (lines 248-262) -/

/-- The call `setTimeout(task, delay)`; returns the new state and the timer id. -/
def setTimeout (s : State) (task : TimerTask) (delay : Int) : State × Nat :=
  ({ s with timers := s.timers ++ [{ id := s.nextTimerId, delay := delay, task := task }],
            nextTimerId := s.nextTimerId + 1 }, s.nextTimerId)

/-- The call `clearTimeout(id)`. -/
def clearTimeout (s : State) (id : Nat) : State :=
  { s with timers := s.timers.eraseP (fun t => t.id == id) }

/-- The function `showVideoBackground()`. -/
def showVideoBackground (s : State) : State :=
  { s with videoPlaying := true, videoActive := true }

/-- The function `hideVideoBackground()`. -/
def hideVideoBackground (s : State) : State :=
  (setTimeout { s with videoActive := false } TimerTask.pauseVideo 800).1

/-! ## Mood visuals (lines 278-342) -/

/-- The table `moodEmojis` with its `|| '💬'` default.  Only the seven entries of the
object literal are looked up: a mood naming a member the object inherits (such as
`toString`) is treated as unknown. -/
def moodEmoji (mood : String) : String :=
  if mood = "happy" then "😊"
  else if mood = "sad" then "💙"
  else if mood = "anxious" then "🫂"
  else if mood = "angry" then "🔥"
  else if mood = "tired" then "😴"
  else if mood = "confused" then "🤔"
  else "💬"

/-- The function `updateMoodIndicator(mood, safeMode)`. -/
def updateMoodIndicator (s : State) (mood : String) (safeMode : Option Bool) : State :=
  if safeMode = some true then
    { s with headerText := "🤍 Safe Space Mode Active", headerColor := "#a8d5ff",
             headerMoodActive := true }
  else
    { s with headerText := moodEmoji mood ++ " Your personal friend",
             headerMoodActive := false }

/-- The function `updateMoodVisuals(mood, safeMode)`. -/
def updateMoodVisuals (s : State) (mood : String) (safeMode : Option Bool) : State :=
  let s := { s with currentMood := mood, safeModeActive := safeMode }
  let s :=
    if safeMode = some true then
      { s with safeSpaceClass := true, bodyFilter := "brightness(0.7)",
               staticOpacity := "0.5" }
    else
      { s with safeSpaceClass := false, bodyFilter := "brightness(1)",
               staticOpacity := "1" }
  updateMoodIndicator s mood safeMode

/-- The function `activateCalmMode()`: one more overlay on the body. -/
def activateCalmMode (s : State) : State :=
  { s with calmOverlays := s.calmOverlays + 1 }

/-! ## The send orchestration (lines 412-536) -/

/-- The constant `minDelay`. -/
def minDelay : Int := 4000

/-- The expression `Math.max(0, minDelay - elapsed)`. -/
def remainingDelay (elapsed : Int) : Int := max 0 (minDelay - elapsed)

/-- The text sent and shown when the input is empty: `message || "What do you ..."`. -/
def defaultPrompt : String := "What do you think about this?"

/-- Lines 453-473: clear the input, show the overlay and the indicator, note
`startTime` and issue `POST /api/chat`. -/
def startChat (s : State) (message : String) (currentMediaAnalysis : Option String)
    (currentMediaType : Option String) (now : Int) : State :=
  let s := { s with inputValue := "", inputHeight := "auto" }
  let s := showVideoBackground s
  let s :=
    match s.videoTimeout with
    | some id => if id ≠ 0 then clearTimeout s id else s
    | none => s
  let s := showTyping s
  { s with chats := s.chats ++
      [{ body := { message := strOr message defaultPrompt,
                   media_analysis := currentMediaAnalysis,
                   media_type := currentMediaType },
         startTime := now }] }

/-- The function `sendMessage()` up to its first suspension (lines 412-431, 448-473). -/
def sendMessage (s : State) (now : Int) : State :=
  if s.isTyping then s
  else
    let message := jsTrim s.inputValue
    if message = "" ∧ s.selectedMedia = none then s
    else
      let s := { s with isTyping := true, sendBtnDisabled := true }
      match s.selectedMedia with
      | some file =>
        let s := showTyping s
        { s with uploads := s.uploads ++
            [{ media := file, formMessage := strOr message defaultPrompt,
               message := message }] }
      | none =>
        let s := addMessage s "user" (some message) false none
        startChat s message none none now

/-- The `message` of the `Error` that `uploadAndAnalyzeMedia` throws (lines 82-92). -/
def uploadErrorMessage : UploadOutcome → Option String
  | UploadOutcome.ok _ _ => none
  | UploadOutcome.httpError error => some (optOr error "Failed to upload media")
  | UploadOutcome.thrown message => some message

/-- Resumption of `sendMessage` when the upload awaited at line 431 settles
(lines 432-447, then 453-473).  The argument `i` picks the pending upload. -/
def uploadSettled (s : State) (i : Nat) (outcome : UploadOutcome) (now : Int) : State :=
  match s.uploads[i]? with
  | none => s
  | some req =>
    let s := { s with uploads := s.uploads.eraseIdx i }
    match outcome with
    | UploadOutcome.ok analysis media_type =>
      let s := hideTyping s
      let s := addMessage s "user" (some (strOr req.message defaultPrompt)) true media_type
      let s := clearMediaSelection s
      startChat s req.message analysis media_type now
    | failed =>
      let s := hideTyping s
      let s := addMessage s "assistant"
        (some ("Sorry, I had trouble analyzing your " ++ optOr s.mediaType "media" ++ ". " ++
          (uploadErrorMessage failed).getD "")) false none
      let s := { s with isTyping := false, sendBtnDisabled := false }
      clearMediaSelection s

/-- Resumption of `sendMessage` when the chat request settles (lines 475-485 and
522-527): the delayed update is scheduled after `remainingDelay`. -/
def chatSettled (s : State) (i : Nat) (outcome : ChatOutcome) (now : Int) : State :=
  match s.chats[i]? with
  | none => s
  | some req =>
    let s := { s with chats := s.chats.eraseIdx i }
    let elapsed := now - req.startTime
    (setTimeout s (TimerTask.delayedUpdate outcome) (remainingDelay elapsed)).1

/-- The last four statements of both delayed callbacks (lines 516-519, 530-533). -/
def finishSend (s : State) : State :=
  let (s, id) := setTimeout s TimerTask.hideVideo 500
  { s with videoTimeout := some id, isTyping := false, sendBtnDisabled := false,
           inputFocused := true }

/-- The callback of lines 485-520 (a response arrived) and 527-534 (the request threw). -/
def delayedUpdate (s : State) (outcome : ChatOutcome) : State :=
  let s := hideTyping s
  match outcome with
  | ChatOutcome.response ok data =>
    if ok then
      if hasText data.response then
        let s := addMessage s "assistant" data.response false none
        let s :=
          if truthy data.mood then
            updateMoodVisuals s (data.mood.getD "") data.safe_space_mode
          else s
        let s :=
          if data.safe_space_mode = some true then
            (setTimeout s TimerTask.calmPrompt 1000).1
          else s
        finishSend s
      else
        finishSend (addMessage s "assistant"
          (some "I'm here, but I'm having trouble responding right now. Please try again.")
          false none)
    else
      finishSend (addMessage s "assistant"
        (some ("Sorry, I encountered an error: " ++ optOr data.error "Unknown error"))
        false none)
  | ChatOutcome.failure =>
    finishSend (addMessage s "assistant" (some "Oops, connection issue. Can you try again?")
      false none)

/-- Running a timer callback; `confirmed` is the answer given to `confirm(..)`. -/
def runTask (s : State) (task : TimerTask) (confirmed : Bool) : State :=
  match task with
  | TimerTask.delayedUpdate outcome => delayedUpdate s outcome
  | TimerTask.calmPrompt => if confirmed then activateCalmMode s else s
  | TimerTask.hideVideo => hideVideoBackground s
  | TimerTask.pauseVideo => { s with videoPlaying := false }

/-- The pending timer `id` fires: it leaves the queue and its callback runs. -/
def fireTimer (s : State) (id : Nat) (confirmed : Bool) : State :=
  match s.timers.find? (fun t => t.id == id) with
  | none => s
  | some t =>
    runTask { s with timers := s.timers.eraseP (fun t => t.id == id) } t.task confirmed

/-- The function `loadHistory()` once `/api/history` has answered (lines 544-554). -/
def historyLoaded (s : State) (history : List HistoryMsg) : State :=
  let s := if history.length > 0 then { s with container := removeWelcome s.container } else s
  history.foldl (fun s msg => addMessage s msg.role msg.content msg.media_type.isSome
    msg.media_type) s

/-! ## Background music (lines 96-245)

The `#backgroundMusic` element follows the HTML Standard: writing `src` and calling
`load()` run the load algorithm, which leaves the element paused; `play()` clears
`paused` when playback is allowed and otherwise returns a rejected promise; `pause()`
sets `paused`; writing `volume` throws unless the value is a finite number in `[0, 1]`
(`TypeError` for a non-finite value, `IndexSizeError` outside the range).  Whether
playback is allowed is supplied by the environment with each call. -/

/-- The list `loadMusicTracks` falls back to when the request fails (lines 103-109). -/
def fallbackTracks : List Track :=
  [{ id := 1, name := "Lofi Beats 1",
     url := "https://res.cloudinary.com/dbiamsdnr/video/upload/Chill_Lofi_Beats_By_Art_Is_Sound_1_x131mw.mp3" },
   { id := 2, name := "Lofi Beats 2",
     url := "https://res.cloudinary.com/dbiamsdnr/video/upload/Chill_Lofi_Beats_By_Art_Is_Sound_2_ta1t9m.mp3" },
   { id := 3, name := "Lofi Beats 3",
     url := "https://res.cloudinary.com/dbiamsdnr/video/upload/Chill_Lofi_Beats_By_Art_Is_Sound_3_lsq9ek.mp3" },
   { id := 4, name := "Lofi Beats 4",
     url := "https://res.cloudinary.com/dbiamsdnr/video/upload/Chill_Lofi_Beats_By_Art_Is_Sound_4_qejsjt.mp3" },
   { id := 5, name := "Lofi Beats 5",
     url := "https://res.cloudinary.com/dbiamsdnr/video/upload/Chill_Lofi_Beats_By_Art_Is_Sound_5_lmbywm.mp3" }]

/-- The function `loadMusicTracks()` once `/api/music-list` has settled: `some tracks`
is the parsed list, `none` a thrown error. -/
def loadMusicTracks (m : MusicState) (outcome : Option (List Track)) : MusicState :=
  { m with musicTracks := outcome.getD fallbackTracks }

/-- Whether the element accepts a value written to `volume`. -/
def volumeAccepted (v : JSNum) : Bool :=
  match v with
  | JSNum.num q => decide (0 ≤ q ∧ q ≤ 1)
  | _ => false

/-- The assignment `backgroundMusic.volume = v`; `none` when it throws. -/
def setAudioVolume (m : MusicState) (v : JSNum) : Option MusicState :=
  match v with
  | JSNum.num q => if 0 ≤ q ∧ q ≤ 1 then some { m with audioVolume := q } else none
  | _ => none

/-- The assignment `backgroundMusic.src = url`. -/
def setAudioSrc (m : MusicState) (url : String) : MusicState :=
  { m with audioSrc := url, audioPaused := true }

/-- The call `backgroundMusic.load()`. -/
def audioLoad (m : MusicState) : MusicState :=
  { m with audioCalls := m.audioCalls ++ [AudioCall.load], audioPaused := true }

/-- The call `backgroundMusic.play()`. -/
def audioPlay (m : MusicState) (allowed : Bool) : MusicState :=
  { m with audioCalls := m.audioCalls ++ [AudioCall.play],
           audioPaused := if allowed then false else m.audioPaused }

/-- The call `backgroundMusic.pause()`. -/
def audioPause (m : MusicState) : MusicState :=
  { m with audioCalls := m.audioCalls ++ [AudioCall.pause], audioPaused := true }

/-- The function `saveMusicPreferences()` up to its `fetch`: the body is built from the
globals as they are at the call. -/
def saveMusicPreferences (m : MusicState) : MusicState :=
  { m with prefPosts := m.prefPosts ++
      [{ music_enabled := m.musicEnabled, current_track := m.currentTrack,
         volume := m.musicVolume }] }

/-- The function `playBackgroundMusic()`; when the promise is rejected its handler
registers the two one-shot listeners on the document. -/
def playBackgroundMusic (m : MusicState) (allowed : Bool) : MusicState :=
  if !m.musicEnabled || !m.musicInitialized then m
  else
    let m := audioPlay m allowed
    if allowed then m else { m with clickListener := true, keypressListener := true }

/-- The function `startMusicAfterInteraction()`. -/
def startMusicAfterInteraction (m : MusicState) (allowed : Bool) : MusicState :=
  if m.musicEnabled && m.musicInitialized then audioPlay m allowed else m

/-- The function `initializeMusic()`: the state it leaves and whether it threw. -/
def initializeMusic (m : MusicState) : MusicState × Bool :=
  if m.musicInitialized then (m, false)
  else
    match m.musicTracks with
    | [] => (m, false)
    | first :: _ =>
      let track := (m.musicTracks.find?
        (fun t => decide (JSNum.num (t.id : ℚ) = m.currentTrack))).getD first
      let m := setAudioSrc m track.url
      match setAudioVolume m m.musicVolume with
      | none => (m, true)
      | some m =>
        let m := { m with audioListeners := m.audioListeners + 1 }
        let m := audioLoad m
        ({ m with musicInitialized := true }, false)

/-- The `catch` block of `loadUserMusicPreferences` (lines 130-135). -/
def preferencesCatch (m : MusicState) : MusicState :=
  if !m.musicInitialized then (initializeMusic m).1 else m

/-- The function `loadUserMusicPreferences()` once `/api/user-music-preference` has
settled: `some preferences` is the parsed body, `none` a thrown error. -/
def loadUserMusicPreferences (m : MusicState) (outcome : Option Preferences) : MusicState :=
  match outcome with
  | none => preferencesCatch m
  | some preferences =>
    let m := { m with
      musicEnabled := preferences.music_enabled,
      currentTrack :=
        match preferences.current_track with
        | some n => if n = 0 then JSNum.num 2 else JSNum.num (n : ℚ)
        | none => JSNum.num 2,
      musicVolume := JSNum.num preferences.volume }
    let m := { m with toggleChecked := some m.musicEnabled,
                      trackSelectValue := some m.currentTrack,
                      volumeSliderValue := some m.musicVolume }
    if m.musicEnabled && !m.musicInitialized then
      let ran := initializeMusic m
      if ran.2 then preferencesCatch ran.1 else ran.1
    else m

/-- The function `toggleBackgroundMusic()`. -/
def toggleBackgroundMusic (m : MusicState) (allowed : Bool) : MusicState :=
  let m := { m with musicEnabled := !m.musicEnabled }
  let m := if m.musicEnabled then playBackgroundMusic m allowed else audioPause m
  saveMusicPreferences m

/-- The function `changeMusicTrack(trackId)`; a throw at the volume write ends it. -/
def changeMusicTrack (m : MusicState) (trackId : String) (allowed : Bool) : MusicState :=
  let m := { m with currentTrack := parseInt trackId }
  if m.musicEnabled then
    let wasPlaying := !m.audioPaused
    match m.musicTracks.find? (fun t => decide (JSNum.num (t.id : ℚ) = m.currentTrack)) with
    | some track =>
      let m := setAudioSrc m track.url
      match setAudioVolume m m.musicVolume with
      | none => m
      | some m =>
        let m := audioLoad m
        let m := if wasPlaying then audioPlay m allowed else m
        saveMusicPreferences m
    | none => saveMusicPreferences m
  else saveMusicPreferences m

/-- The function `changeMusicVolume(volume)`; a throw at the volume write ends it. -/
def changeMusicVolume (m : MusicState) (volume : String) : MusicState :=
  let m := { m with musicVolume := parseFloat volume }
  match setAudioVolume m m.musicVolume with
  | none => m
  | some m => saveMusicPreferences m

/-- What can happen to the player. -/
inductive MusicEvent
  | tracksLoaded (outcome : Option (List Track))
  | preferencesLoaded (outcome : Option Preferences)
  | mediaReady (allowed : Bool)
  | click (allowed : Bool)
  | keypress (allowed : Bool)
  | toggle (allowed : Bool)
  | changeTrack (trackId : String) (allowed : Bool)
  | changeVolume (volume : String)
  deriving DecidableEq, Repr

/-- One turn of the event loop for the player.  `mediaReady` is `loadeddata` or
`canplaythrough` firing on the element: every listener registered for it runs
`playBackgroundMusic`.  A click or key press runs the one-shot listener if it is there. -/
def musicStep (m : MusicState) : MusicEvent → MusicState
  | MusicEvent.tracksLoaded outcome => loadMusicTracks m outcome
  | MusicEvent.preferencesLoaded outcome => loadUserMusicPreferences m outcome
  | MusicEvent.mediaReady allowed =>
    (List.range m.audioListeners).foldl (fun m _ => playBackgroundMusic m allowed) m
  | MusicEvent.click allowed =>
    if m.clickListener then
      startMusicAfterInteraction { m with clickListener := false } allowed
    else m
  | MusicEvent.keypress allowed =>
    if m.keypressListener then
      startMusicAfterInteraction { m with keypressListener := false } allowed
    else m
  | MusicEvent.toggle allowed => toggleBackgroundMusic m allowed
  | MusicEvent.changeTrack trackId allowed => changeMusicTrack m trackId allowed
  | MusicEvent.changeVolume volume => changeMusicVolume m volume

/-- Running a list of player events in order. -/
def musicRun (m : MusicState) (es : List MusicEvent) : MusicState := es.foldl musicStep m

/-- Whether the volume an event brings in (the parsed slider value, the stored
preference) is a number in `[0, 1]`; events that bring none pass. -/
def MusicEvent.volumeInRange : MusicEvent → Bool
  | MusicEvent.preferencesLoaded (some preferences) =>
    volumeAccepted (JSNum.num preferences.volume)
  | MusicEvent.changeVolume volume => volumeAccepted (parseFloat volume)
  | _ => true

/-! ## The event loop -/

/-- What can happen on the page, as far as the chat flow is concerned. -/
inductive Event
  | sendMessage (now : Int)
  | uploadSettled (i : Nat) (outcome : UploadOutcome) (now : Int)
  | chatSettled (i : Nat) (outcome : ChatOutcome) (now : Int)
  | timerFired (id : Nat) (confirmed : Bool)
  | typeInput (text : String)
  | blurInput
  | handleMediaSelect (file : Option MediaFile)
  | clearMediaSelection
  | historyLoaded (history : List HistoryMsg)
  | music (e : MusicEvent)
  deriving DecidableEq, Repr

/-- One turn of the event loop. -/
def step (s : State) : Event → State
  | Event.sendMessage now => sendMessage s now
  | Event.uploadSettled i outcome now => uploadSettled s i outcome now
  | Event.chatSettled i outcome now => chatSettled s i outcome now
  | Event.timerFired id confirmed => fireTimer s id confirmed
  | Event.typeInput text => { s with inputValue := text }
  | Event.blurInput => { s with inputFocused := false }
  | Event.handleMediaSelect file => handleMediaSelect s file
  | Event.clearMediaSelection => clearMediaSelection s
  | Event.historyLoaded history => historyLoaded s history
  | Event.music e => { s with music := musicStep s.music e }

/-- Running a list of events in order. -/
def run (s : State) (es : List Event) : State := es.foldl step s

/-- Whether a timer is the delayed update of a chat request. -/
def Timer.isUpdate (t : Timer) : Bool :=
  match t.task with
  | TimerTask.delayedUpdate _ => true
  | _ => false

/-- Whether a container child is the typing indicator. -/
def Node.isTyping : Node → Bool
  | Node.typing => true
  | _ => false

/-- The bubbles of a container, in order. -/
def bubbles : List Node → List Bubble
  | [] => []
  | Node.message b :: rest => b :: bubbles rest
  | _ :: rest => bubbles rest

/-- Number of `sendMessage` flows under way: uploads and chat requests in flight plus
delayed updates still pending. -/
def State.busy (s : State) : Nat :=
  s.uploads.length + s.chats.length + s.timers.countP Timer.isUpdate

/-- A page on which no send is under way: the state of a freshly loaded page, with any
content, selection, mood and music. -/
def PageLoaded (s : State) : Prop :=
  s.isTyping = false ∧ s.sendBtnDisabled = false ∧ s.busy = 0 ∧
  s.container.countP Node.isTyping = 0

instance (s : State) : Decidable (PageLoaded s) := by
  unfold PageLoaded; infer_instance

/-- States reachable from a loaded page by any sequence of events. -/
inductive Reachable : State → Prop
  | start (s : State) (h : PageLoaded s) : Reachable s
  | step (s : State) (e : Event) (h : Reachable s) : Reachable (step s e)

/-- The mood and safe-mode state of the page: the two globals and what
`updateMoodVisuals` paints. -/
def moodState (s : State) :
    String × Option Bool × Bool × String × String × String × String × Bool :=
  (s.currentMood, s.safeModeActive, s.safeSpaceClass, s.bodyFilter, s.staticOpacity,
    s.headerText, s.headerColor, s.headerMoodActive)

/-! ## Journal and reminder panels (lines 613-639 and 704-733) -/

/-- The requests the two panels send. -/
inductive PanelRequest
  | postJournal (content mood : String)
  | getJournal
  | postReminder (title date time repeatValue : String)
  | getReminders
  deriving DecidableEq, Repr

/-- The form fields of the journal and reminder modals, the alerts shown and the
requests issued so far. -/
structure Panels where
  journalContent : String
  journalMood : String
  reminderTitle : String
  reminderDate : String
  reminderTime : String
  reminderRepeat : String
  alerts : List String
  requests : List PanelRequest
  deriving DecidableEq, Repr

/-- The six form fields. -/
def Panels.fields (p : Panels) : String × String × String × String × String × String :=
  (p.journalContent, p.journalMood, p.reminderTitle, p.reminderDate, p.reminderTime,
    p.reminderRepeat)

/-- The function `saveJournalEntry()` up to its `fetch` (lines 613-627). -/
def saveJournalEntry (p : Panels) : Panels :=
  let content := jsTrim p.journalContent
  let mood := p.journalMood
  if content = "" then
    { p with alerts := p.alerts ++ ["Please write something in your journal entry."] }
  else
    { p with requests := p.requests ++ [PanelRequest.postJournal content mood] }

/-- Resumption of `saveJournalEntry` when its request settles (lines 629-638): `some ok`
is a response with that `response.ok`, `none` a thrown error.  On success the form is
emptied and `loadJournalEntries` fetches the list. -/
def journalSettled (p : Panels) (outcome : Option Bool) : Panels :=
  if outcome = some true then
    { p with journalContent := "", journalMood := "",
             requests := p.requests ++ [PanelRequest.getJournal] }
  else
    { p with alerts := p.alerts ++ ["Failed to save journal entry"] }

/-- The function `saveReminder()` up to its `fetch` (lines 704-720). -/
def saveReminder (p : Panels) : Panels :=
  let title := jsTrim p.reminderTitle
  let date := p.reminderDate
  let time := p.reminderTime
  let repeatValue := p.reminderRepeat
  if title = "" ∨ date = "" ∨ time = "" then
    { p with alerts := p.alerts ++ ["Please fill in all reminder details."] }
  else
    { p with requests := p.requests ++ [PanelRequest.postReminder title date time repeatValue] }

/-- Resumption of `saveReminder` when its request settles (lines 722-732). -/
def reminderSettled (p : Panels) (outcome : Option Bool) : Panels :=
  if outcome = some true then
    { p with reminderTitle := "", reminderDate := "", reminderTime := "",
             requests := p.requests ++ [PanelRequest.getReminders] }
  else
    { p with alerts := p.alerts ++ ["Failed to save reminder"] }

/-! ## The busy-flag invariant: statement -/

/-- What the `isTyping` guard maintains: at most one send flow is under way, the flag
and the button say whether one is, and the page shows one typing indicator per flow. -/
structure Inv (s : State) : Prop where
  busy_le : s.busy ≤ 1
  flag : s.isTyping = decide (s.busy = 1)
  button : s.sendBtnDisabled = s.isTyping
  indicator : s.container.countP Node.isTyping = s.busy

/-! ## Sample pages used to exercise the theorems -/

/-- A loaded page with `  Hello ` typed into the input. -/
def helloPage : State := { State.initial with inputValue := "  Hello " }

/-- A picked photograph. -/
def photo : MediaFile := { name := "cat.png", type := "image/png", size := 2048 }

/-- The page after `Hello` has been sent at time 1000. -/
def helloSent : State := sendMessage helloPage 1000

/-- The chat request that `helloSent` has in flight. -/
def helloReq : ChatReq :=
  { body := { message := "Hello", media_analysis := none, media_type := none },
    startTime := 1000 }

/-- The page after the backend has answered `Hello` with an HTTP error at time 1200. -/
def helloFailed : State :=
  run helloPage [Event.sendMessage 1000, Event.blurInput,
    Event.chatSettled 0 (ChatOutcome.response false
      { response := none, mood := none, safe_space_mode := none, error := some "db down" })
      1200]

/-- The page after the backend has answered `Hello` with `Hi there!` at time 1200. -/
def helloAnswered : State :=
  run helloPage [Event.sendMessage 1000,
    Event.chatSettled 0 (ChatOutcome.response true
      { response := some "Hi there!", mood := some "happy", safe_space_mode := some false,
        error := none })
      1200]

/-- The page after the backend has answered `Hello` with a blank text at time 1200. -/
def helloBlank : State :=
  run helloPage [Event.sendMessage 1000,
    Event.chatSettled 0 (ChatOutcome.response true
      { response := some "  ", mood := some "sad", safe_space_mode := some true,
        error := none })
      1200]

/-- A loaded page with a photo picked, after the send button has been clicked (the input
has lost focus) at time 1000. -/
def photoSent : State :=
  run State.initial [Event.handleMediaSelect (some photo), Event.blurInput,
    Event.sendMessage 1000]

/-- A picked document: neither an image nor a video. -/
def report : MediaFile := { name := "report.pdf", type := "application/pdf", size := 52000 }

/-- The payload of a reply that reports safe-space mode. -/
def calmData : ChatData :=
  { response := some "Breathe with me.", mood := some "anxious",
    safe_space_mode := some true, error := none }

/-- A page that is already in safe-space mode, after `Hello` has been answered with
`calmData` at time 1200; timer 1 is the delayed update. -/
def calmPage : State :=
  run { helloPage with currentMood := "anxious", safeModeActive := some true,
                       safeSpaceClass := true }
    [Event.sendMessage 1000, Event.chatSettled 0 (ChatOutcome.response true calmData) 1200]

/-- The two modals with a journal text typed and a reminder lacking its time. -/
def draftPanels : Panels :=
  { journalContent := " A good day. ", journalMood := "good",
    reminderTitle := "Drink a glass of water 💧", reminderDate := "2026-11-05",
    reminderTime := "", reminderRepeat := "daily", alerts := [], requests := [] }

/-- The player after the track list and the preferences both failed to load and the media
became ready with playback allowed: track 2 of the fallback list is playing. -/
def playingMusic : MusicState :=
  musicRun MusicState.initial
    [MusicEvent.tracksLoaded none, MusicEvent.preferencesLoaded none,
     MusicEvent.mediaReady true]

/-- The playing player after `5` has been handed to `changeMusicVolume`. -/
def loudMusic : MusicState := musicStep playingMusic (MusicEvent.changeVolume "5")

/-- The range property of the volumes: the stored volume and every
persisted volume are numbers in `[0, 1]`. -/
def VolumesInRange (m : MusicState) : Prop :=
  volumeAccepted m.musicVolume = true ∧ ∀ b ∈ m.prefPosts, volumeAccepted b.volume = true

/-- A loaded page whose history held one entry with the role `welcome-message`: its
bubble carries the class the welcome block is looked up by. -/
def strayPage : State :=
  historyLoaded State.initial
    [{ role := "welcome-message", content := some "first", media_type := none }]

/-! ## Elementary facts -/

theorem mem_dropWhile_of_false {p : Char → Bool} {c : Char} :
    ∀ {l : List Char}, c ∈ l → p c = false → c ∈ l.dropWhile p
  | [], h, _ => by cases h
  | a :: l, h, hc => by
    by_cases ha : p a = true
    · rw [List.dropWhile_cons_of_pos ha]
      rcases List.mem_cons.mp h with rfl | h
      · rw [ha] at hc; cases hc
      · exact mem_dropWhile_of_false h hc
    · rw [List.dropWhile_cons_of_neg ha]; exact h

theorem trimChars_ne_nil {l : List Char} {c : Char} (hmem : c ∈ l)
    (hc : isJsWhitespace c = false) : trimChars l ≠ [] := by
  have h1 : c ∈ (l.dropWhile isJsWhitespace).reverse :=
    List.mem_reverse.mpr (mem_dropWhile_of_false hmem hc)
  have h2 : c ∈ trimChars l := List.mem_reverse.mpr (mem_dropWhile_of_false h1 hc)
  intro h
  rw [h] at h2
  cases h2

theorem string_ne_empty_iff (s : String) : s ≠ "" ↔ s.data ≠ [] := by
  constructor
  · intro h hd
    apply h
    cases s
    simp_all
  · intro h hs
    apply h
    rw [hs]

theorem jsTrim_empty : jsTrim "" = "" := rfl

theorem ne_empty_of_jsTrim_ne {r : String} (h : jsTrim r ≠ "") : r ≠ "" := by
  intro hr
  rw [hr] at h
  exact h jsTrim_empty

theorem hasText_some (r : String) : hasText (some r) = true ↔ jsTrim r ≠ "" := by
  simp only [hasText, Bool.and_eq_true, bne_iff_ne, ne_eq]
  constructor
  · exact fun h => h.2
  · exact fun h => ⟨ne_empty_of_jsTrim_ne h, h⟩

theorem hasText_of_mem {r : String} {c : Char} (hmem : c ∈ r.data)
    (hc : isJsWhitespace c = false) : hasText (some r) = true := by
  rw [hasText_some, string_ne_empty_iff]
  exact trimChars_ne_nil hmem hc

/-! ## Counting lemmas -/

theorem countP_removeWelcome (c : List Node) :
    (removeWelcome c).countP Node.isTyping = c.countP Node.isTyping := by
  unfold removeWelcome
  induction c with
  | nil => rfl
  | cons n rest ih =>
    by_cases hn : n.matchesWelcome = true
    · have hty : n.isTyping = false := by
        cases n <;> simp_all [Node.matchesWelcome, Node.isTyping]
      simp [List.eraseP_cons, hn, hty]
    · simp [List.eraseP_cons, hn, List.countP_cons, ih]

theorem countP_removeTyping (c : List Node) :
    (removeTyping c).countP Node.isTyping = c.countP Node.isTyping - 1 := by
  induction c with
  | nil => rfl
  | cons n rest ih =>
    cases n with
    | welcome h b => simp [removeTyping, Node.isTyping, ih]
    | message b => simp [removeTyping, Node.isTyping, ih]
    | typing => simp [removeTyping, Node.isTyping]

theorem bubbles_append (a b : List Node) : bubbles (a ++ b) = bubbles a ++ bubbles b := by
  induction a with
  | nil => rfl
  | cons n rest ih => cases n <;> simp [bubbles, ih]

theorem bubbles_removeWelcome {c : List Node} (h : removesBubble c = false) :
    bubbles (removeWelcome c) = bubbles c := by
  unfold removeWelcome
  induction c with
  | nil => rfl
  | cons n rest ih =>
    by_cases hn : n.matchesWelcome = true
    · cases n with
      | welcome a b => simp [List.eraseP_cons, Node.matchesWelcome, bubbles]
      | message b => simp [removesBubble, List.find?_cons, hn] at h
      | typing => simp [Node.matchesWelcome] at hn
    · have hrest : removesBubble rest = false := by
        simpa [removesBubble, List.find?_cons, hn] using h
      cases n <;> simp_all [List.eraseP_cons, bubbles]

theorem bubbles_removeTyping (c : List Node) : bubbles (removeTyping c) = bubbles c := by
  induction c with
  | nil => rfl
  | cons n rest ih => cases n <;> simp [removeTyping, bubbles, ih]

theorem countP_eraseP_le (l : List Timer) (id : Nat) :
    (l.eraseP (fun t => t.id == id)).countP Timer.isUpdate ≤ l.countP Timer.isUpdate := by
  induction l with
  | nil => simp
  | cons a rest ih =>
    by_cases ha : (a.id == id) = true
    · simp only [List.eraseP_cons, ha, cond_true, List.countP_cons]; omega
    · simp only [List.eraseP_cons, ha, cond_false, List.countP_cons]; omega

theorem countP_eraseP_of_find {l : List Timer} {id : Nat} {t : Timer}
    (h : l.find? (fun t => t.id == id) = some t) :
    (l.eraseP (fun t => t.id == id)).countP Timer.isUpdate + (if t.isUpdate then 1 else 0)
      = l.countP Timer.isUpdate := by
  induction l with
  | nil => simp at h
  | cons a rest ih =>
    by_cases ha : (a.id == id) = true
    · simp only [List.find?_cons, ha, Option.some.injEq] at h
      subst h
      simp only [List.eraseP_cons, ha, cond_true, List.countP_cons]
    · simp only [List.find?_cons, ha] at h
      simp only [List.eraseP_cons, ha, cond_false, List.countP_cons, ← ih h]
      omega

/-! ## The busy-flag invariant -/

theorem inv_of_pageLoaded {s : State} (h : PageLoaded s) : Inv s := by
  obtain ⟨h1, h2, h3, h4⟩ := h
  exact ⟨by omega, by simp [h1, h3], by simp [h1, h2], by simp [h3, h4]⟩

theorem inv_addMessage {s : State} (h : Inv s) (role : String) (content : Option String)
    (hasMedia : Bool) (mediaTypeStr : Option String) :
    Inv (addMessage s role content hasMedia mediaTypeStr) := by
  obtain ⟨h1, h2, h3, h4⟩ := h
  refine ⟨h1, h2, h3, ?_⟩
  simpa [addMessage, State.busy, countP_removeWelcome, Node.isTyping] using h4

theorem busy_startChat (s : State) (message : String) (a t : Option String) (now : Int) :
    (startChat s message a t now).uploads = s.uploads ∧
    (startChat s message a t now).chats.length = s.chats.length + 1 ∧
    (startChat s message a t now).timers.countP Timer.isUpdate ≤
      s.timers.countP Timer.isUpdate ∧
    (startChat s message a t now).container = s.container ++ [Node.typing] ∧
    (startChat s message a t now).isTyping = s.isTyping ∧
    (startChat s message a t now).sendBtnDisabled = s.sendBtnDisabled := by
  unfold startChat showVideoBackground showTyping clearTimeout
  cases hv : s.videoTimeout with
  | none => simp [hv]
  | some id =>
    by_cases hid : id = 0
    · simp [hv, hid]
    · simp [hv, hid, countP_eraseP_le]

theorem sendMessage_busy {s : State} (h : s.isTyping = true) (now : Int) :
    sendMessage s now = s := by
  simp [sendMessage, h]

theorem sendMessage_empty {s : State} (hm : jsTrim s.inputValue = "")
    (hsel : s.selectedMedia = none) (now : Int) : sendMessage s now = s := by
  simp [sendMessage, hm, hsel]

theorem sendMessage_media {s : State} {f : MediaFile} (h : s.isTyping = false)
    (hsel : s.selectedMedia = some f) (now : Int) :
    sendMessage s now =
      { showTyping { s with isTyping := true, sendBtnDisabled := true } with
        uploads := s.uploads ++
          [{ media := f, formMessage := strOr (jsTrim s.inputValue) defaultPrompt,
             message := jsTrim s.inputValue }] } := by
  simp [sendMessage, h, hsel, showTyping]

theorem sendMessage_text {s : State} (h : s.isTyping = false)
    (hsel : s.selectedMedia = none) (hm : jsTrim s.inputValue ≠ "") (now : Int) :
    sendMessage s now =
      startChat (addMessage { s with isTyping := true, sendBtnDisabled := true } "user"
        (some (jsTrim s.inputValue)) false none) (jsTrim s.inputValue) none none now := by
  simp [sendMessage, h, hsel, hm]

theorem busy_zero_of_idle {s : State} (h : Inv s) (hty : s.isTyping = false) :
    s.busy = 0 := by
  have h1 := h.busy_le
  have h2 := h.flag
  rw [hty] at h2
  have : ¬ s.busy = 1 := by simpa using h2.symm
  omega

theorem startChat_fields (s : State) (message : String) (a t : Option String) (now : Int) :
    (startChat s message a t now).chats = s.chats ++
      [{ body := { message := strOr message defaultPrompt, media_analysis := a,
                   media_type := t },
         startTime := now }] ∧
    (startChat s message a t now).inputValue = "" ∧
    (startChat s message a t now).inputFocused = s.inputFocused ∧
    (startChat s message a t now).selectedMedia = s.selectedMedia ∧
    (startChat s message a t now).mediaAnalysis = s.mediaAnalysis ∧
    (startChat s message a t now).mediaType = s.mediaType ∧
    (startChat s message a t now).currentMood = s.currentMood ∧
    (startChat s message a t now).safeModeActive = s.safeModeActive := by
  unfold startChat showVideoBackground showTyping clearTimeout
  cases hv : s.videoTimeout with
  | none => simp [hv]
  | some id =>
    by_cases hid : id = 0
    · simp [hv, hid]
    · simp [hv, hid]

theorem inv_startChat {s : State} (hb : s.busy = 0)
    (hc : s.container.countP Node.isTyping = 0) (ht : s.isTyping = true)
    (hd : s.sendBtnDisabled = true) (message : String) (a t : Option String) (now : Int) :
    Inv (startChat s message a t now) := by
  obtain ⟨e1, e2, e3, e4, e5, e6⟩ := busy_startChat s message a t now
  simp only [State.busy] at hb
  refine ⟨?_, ?_, ?_, ?_⟩
  · simp only [State.busy, e1, e2]; omega
  · simp only [State.busy, e1, e2, e5, ht]; simp; omega
  · simp only [e5, e6, ht, hd]
  · simp only [State.busy, e1, e2, e4]
    simp [Node.isTyping, hc]
    omega

theorem inv_sendMessage {s : State} (h : Inv s) (now : Int) : Inv (sendMessage s now) := by
  cases hty : s.isTyping with
  | true => rw [sendMessage_busy hty]; exact h
  | false =>
    have hb := busy_zero_of_idle h hty
    have h4 := h.indicator
    cases hsel : s.selectedMedia with
    | some f =>
      rw [sendMessage_media hty hsel]
      simp only [State.busy] at hb
      refine ⟨?_, ?_, ?_, ?_⟩ <;>
        simp [State.busy, showTyping, Node.isTyping, h4] <;> omega
    | none =>
      by_cases hm : jsTrim s.inputValue = ""
      · rw [sendMessage_empty hm hsel]; exact h
      · rw [sendMessage_text hty hsel hm]
        apply inv_startChat
        · simpa [addMessage, State.busy] using hb
        · simp [addMessage, countP_removeWelcome, Node.isTyping, h4, hb]
        · rfl
        · rfl

theorem length_eraseIdx_of_getElem {α : Type} {l : List α} {i : Nat} {a : α}
    (h : l[i]? = some a) : (l.eraseIdx i).length + 1 = l.length := by
  obtain ⟨hi, _⟩ := List.getElem?_eq_some.mp h
  rw [List.length_eraseIdx, if_pos hi]
  omega

theorem uploadSettled_none {s : State} {i : Nat} (h : s.uploads[i]? = none)
    (o : UploadOutcome) (now : Int) : uploadSettled s i o now = s := by
  simp [uploadSettled, h]

theorem uploadSettled_ok {s : State} {i : Nat} {req : UploadReq}
    (h : s.uploads[i]? = some req) (a mt : Option String) (now : Int) :
    uploadSettled s i (UploadOutcome.ok a mt) now =
      startChat (clearMediaSelection (addMessage
        (hideTyping { s with uploads := s.uploads.eraseIdx i }) "user"
        (some (strOr req.message defaultPrompt)) true mt)) req.message a mt now := by
  simp [uploadSettled, h]

theorem uploadSettled_failed {s : State} {i : Nat} {req : UploadReq} {o : UploadOutcome}
    {msg : String} (h : s.uploads[i]? = some req) (hmsg : uploadErrorMessage o = some msg)
    (now : Int) :
    uploadSettled s i o now =
      clearMediaSelection
        { addMessage (hideTyping { s with uploads := s.uploads.eraseIdx i }) "assistant"
            (some ("Sorry, I had trouble analyzing your " ++ optOr s.mediaType "media" ++
              ". " ++ msg)) false none with
          isTyping := false, sendBtnDisabled := false } := by
  cases o with
  | ok a mt => simp [uploadErrorMessage] at hmsg
  | httpError e => simp [uploadSettled, h, hmsg, hideTyping]
  | thrown m => simp [uploadSettled, h, hmsg, hideTyping]

theorem uploadErrorMessage_of_not_ok (o : UploadOutcome)
    (h : ∀ a mt, o ≠ UploadOutcome.ok a mt) : ∃ msg, uploadErrorMessage o = some msg := by
  cases o with
  | ok a mt => exact absurd rfl (h a mt)
  | httpError e => exact ⟨_, rfl⟩
  | thrown m => exact ⟨_, rfl⟩

theorem inv_uploadSettled {s : State} (h : Inv s) (i : Nat) (o : UploadOutcome)
    (now : Int) : Inv (uploadSettled s i o now) := by
  cases hreq : s.uploads[i]? with
  | none => rw [uploadSettled_none hreq]; exact h
  | some req =>
    have hlen := length_eraseIdx_of_getElem hreq
    have h1 := h.busy_le
    have h4 := h.indicator
    simp only [State.busy] at h1 h4
    have hu : (s.uploads.eraseIdx i).length = 0 := by omega
    have hc : s.chats.length = 0 := by omega
    have ht : s.timers.countP Timer.isUpdate = 0 := by omega
    have hn : s.container.countP Node.isTyping = 1 := by omega
    have hflag : s.isTyping = true := by
      rw [h.flag]; simp only [State.busy, decide_eq_true_eq]; omega
    by_cases hok : ∃ a mt, o = UploadOutcome.ok a mt
    · obtain ⟨a, mt, rfl⟩ := hok
      rw [uploadSettled_ok hreq]
      apply inv_startChat
      · simp [clearMediaSelection, addMessage, hideTyping, State.busy, hu, hc, ht]
      · simp [clearMediaSelection, addMessage, hideTyping, countP_removeWelcome,
          countP_removeTyping, Node.isTyping, hn]
      · simpa [clearMediaSelection, addMessage, hideTyping] using hflag
      · simpa [clearMediaSelection, addMessage, hideTyping, h.button] using hflag
    · obtain ⟨msg, hmsg⟩ := uploadErrorMessage_of_not_ok o
        (fun a mt e => hok ⟨a, mt, e⟩)
      rw [uploadSettled_failed hreq hmsg]
      refine ⟨?_, ?_, ?_, ?_⟩ <;>
        simp [clearMediaSelection, addMessage, hideTyping, State.busy, hu, hc, ht,
          countP_removeWelcome, countP_removeTyping, Node.isTyping, hn]

theorem chatSettled_none {s : State} {i : Nat} (h : s.chats[i]? = none)
    (o : ChatOutcome) (now : Int) : chatSettled s i o now = s := by
  simp [chatSettled, h]

theorem chatSettled_some {s : State} {i : Nat} {req : ChatReq} (h : s.chats[i]? = some req)
    (o : ChatOutcome) (now : Int) :
    chatSettled s i o now =
      { s with
        chats := s.chats.eraseIdx i,
        timers := s.timers ++ [{ id := s.nextTimerId,
                                 delay := remainingDelay (now - req.startTime),
                                 task := TimerTask.delayedUpdate o }],
        nextTimerId := s.nextTimerId + 1 } := by
  simp [chatSettled, h, setTimeout]

theorem inv_chatSettled {s : State} (h : Inv s) (i : Nat) (o : ChatOutcome) (now : Int) :
    Inv (chatSettled s i o now) := by
  cases hreq : s.chats[i]? with
  | none => rw [chatSettled_none hreq]; exact h
  | some req =>
    have hlen := length_eraseIdx_of_getElem hreq
    have hb : (chatSettled s i o now).busy = s.busy := by
      rw [chatSettled_some hreq]
      simp [State.busy, Timer.isUpdate]
      omega
    rw [chatSettled_some hreq] at hb ⊢
    exact ⟨hb ▸ h.busy_le, by rw [hb]; exact h.flag, h.button, by rw [hb]; exact h.indicator⟩

/-- What every branch of the delayed callback does, whatever the outcome. -/
theorem delayedUpdate_common (s : State) (o : ChatOutcome) :
    (delayedUpdate s o).isTyping = false ∧
    (delayedUpdate s o).sendBtnDisabled = false ∧
    (delayedUpdate s o).inputFocused = true ∧
    (delayedUpdate s o).uploads = s.uploads ∧
    (delayedUpdate s o).chats = s.chats ∧
    (delayedUpdate s o).timers.countP Timer.isUpdate = s.timers.countP Timer.isUpdate ∧
    ∃ b, (delayedUpdate s o).container =
      removeWelcome (removeTyping s.container) ++ [Node.message b] := by
  cases o with
  | failure =>
    simp [delayedUpdate, finishSend, setTimeout, addMessage, hideTyping, Timer.isUpdate]
  | response ok data =>
    cases ok with
    | false =>
      simp [delayedUpdate, finishSend, setTimeout, addMessage, hideTyping, Timer.isUpdate]
    | true =>
      by_cases ht : hasText data.response = true
      · by_cases hm : truthy data.mood = true <;>
        by_cases hs : data.safe_space_mode = some true <;>
        simp [delayedUpdate, finishSend, setTimeout, addMessage, hideTyping, Timer.isUpdate,
          updateMoodVisuals, updateMoodIndicator, ht, hm, hs]
      · simp [delayedUpdate, finishSend, setTimeout, addMessage, hideTyping, Timer.isUpdate,
          ht]

theorem fireTimer_none {s : State} {id : Nat}
    (h : s.timers.find? (fun t => t.id == id) = none) (c : Bool) : fireTimer s id c = s := by
  simp [fireTimer, h]

theorem fireTimer_some {s : State} {id : Nat} {t : Timer}
    (h : s.timers.find? (fun t => t.id == id) = some t) (c : Bool) :
    fireTimer s id c =
      runTask { s with timers := s.timers.eraseP (fun t => t.id == id) } t.task c := by
  simp [fireTimer, h]

theorem fireTimer_update {s : State} {id : Nat} {t : Timer} {o : ChatOutcome}
    (h : s.timers.find? (fun t => t.id == id) = some t)
    (ho : t.task = TimerTask.delayedUpdate o) (c : Bool) :
    fireTimer s id c =
      delayedUpdate { s with timers := s.timers.eraseP (fun t => t.id == id) } o := by
  rw [fireTimer_some h, ho]; rfl

theorem inv_fireTimer {s : State} (h : Inv s) (id : Nat) (c : Bool) :
    Inv (fireTimer s id c) := by
  cases hf : s.timers.find? (fun t => t.id == id) with
  | none => rw [fireTimer_none hf]; exact h
  | some t =>
    have hcount := countP_eraseP_of_find hf
    have h1 := h.busy_le
    have h2 := h.flag
    have h4 := h.indicator
    rw [fireTimer_some hf]
    cases htask : t.task with
    | delayedUpdate o =>
      have hup : t.isUpdate = true := by simp [Timer.isUpdate, htask]
      rw [hup, if_pos rfl] at hcount
      simp only [State.busy] at h1 h4
      obtain ⟨e1, e2, _, e4, e5, e6, b, e7⟩ := delayedUpdate_common
        { s with timers := s.timers.eraseP (fun t => t.id == id) } o
      simp only [runTask]
      refine ⟨?_, ?_, ?_, ?_⟩
      · simp only [State.busy, e4, e5, e6]; omega
      · simp only [State.busy, e4, e5, e6, e1]; simp; omega
      · rw [e1, e2]
      · simp only [State.busy, e4, e5, e6, e7]
        simp [countP_removeWelcome, countP_removeTyping, Node.isTyping]
        omega
    | calmPrompt =>
      have hup : t.isUpdate = false := by simp [Timer.isUpdate, htask]
      rw [hup] at hcount
      simp only [Bool.false_eq_true, if_false, Nat.add_zero] at hcount
      cases c <;>
      exact ⟨by simpa [runTask, activateCalmMode, State.busy, hcount] using h1,
        by simpa [runTask, activateCalmMode, State.busy, hcount] using h2,
        by simpa [runTask, activateCalmMode] using h.button,
        by simpa [runTask, activateCalmMode, State.busy, hcount] using h4⟩
    | hideVideo =>
      have hup : t.isUpdate = false := by simp [Timer.isUpdate, htask]
      rw [hup] at hcount
      simp only [Bool.false_eq_true, if_false, Nat.add_zero] at hcount
      exact ⟨by simpa [runTask, hideVideoBackground, setTimeout, Timer.isUpdate, State.busy,
          hcount] using h1,
        by simpa [runTask, hideVideoBackground, setTimeout, Timer.isUpdate, State.busy,
          hcount] using h2,
        by simpa [runTask, hideVideoBackground, setTimeout] using h.button,
        by simpa [runTask, hideVideoBackground, setTimeout, Timer.isUpdate, State.busy,
          hcount] using h4⟩
    | pauseVideo =>
      have hup : t.isUpdate = false := by simp [Timer.isUpdate, htask]
      rw [hup] at hcount
      simp only [Bool.false_eq_true, if_false, Nat.add_zero] at hcount
      exact ⟨by simpa [runTask, State.busy, hcount] using h1,
        by simpa [runTask, State.busy, hcount] using h2,
        by simpa [runTask] using h.button,
        by simpa [runTask, State.busy, hcount] using h4⟩

theorem inv_historyLoaded {s : State} (h : Inv s) (history : List HistoryMsg) :
    Inv (historyLoaded s history) := by
  have hfold : ∀ (l : List HistoryMsg) (t : State), Inv t →
      Inv (l.foldl (fun s msg => addMessage s msg.role msg.content msg.media_type.isSome
        msg.media_type) t) := by
    intro l
    induction l with
    | nil => intro t ht; exact ht
    | cons m rest ih => intro t ht; exact ih _ (inv_addMessage ht _ _ _ _)
  unfold historyLoaded
  apply hfold
  split
  · exact ⟨h.busy_le, h.flag, h.button, by
      simpa [State.busy, countP_removeWelcome] using h.indicator⟩
  · exact h

theorem inv_handleMediaSelect {s : State} (h : Inv s) (file : Option MediaFile) :
    Inv (handleMediaSelect s file) := by
  cases file with
  | none => exact h
  | some f =>
    obtain ⟨h1, h2, h3, h4⟩ := h
    unfold handleMediaSelect
    by_cases hi : jsStartsWith f.type "image/" = true
    · exact ⟨by simpa [hi, State.busy] using h1, by simpa [hi, State.busy] using h2,
        by simpa [hi] using h3, by simpa [hi, State.busy] using h4⟩
    · by_cases hv : jsStartsWith f.type "video/" = true
      · exact ⟨by simpa [hi, hv, State.busy] using h1, by simpa [hi, hv, State.busy] using h2,
          by simpa [hi, hv] using h3, by simpa [hi, hv, State.busy] using h4⟩
      · exact ⟨by simpa [hi, hv, State.busy] using h1, by simpa [hi, hv, State.busy] using h2,
          by simpa [hi, hv] using h3, by simpa [hi, hv, State.busy] using h4⟩

theorem inv_step {s : State} (h : Inv s) (e : Event) : Inv (step s e) := by
  cases e with
  | sendMessage now => exact inv_sendMessage h now
  | uploadSettled i o now => exact inv_uploadSettled h i o now
  | chatSettled i o now => exact inv_chatSettled h i o now
  | timerFired id c => exact inv_fireTimer h id c
  | typeInput text => exact ⟨h.busy_le, h.flag, h.button, h.indicator⟩
  | blurInput => exact ⟨h.busy_le, h.flag, h.button, h.indicator⟩
  | handleMediaSelect file => exact inv_handleMediaSelect h file
  | clearMediaSelection => exact ⟨h.busy_le, h.flag, h.button, h.indicator⟩
  | historyLoaded history => exact inv_historyLoaded h history
  | music e => exact ⟨h.busy_le, h.flag, h.button, h.indicator⟩

theorem inv_of_reachable {s : State} (h : Reachable s) : Inv s := by
  induction h with
  | start s hs => exact inv_of_pageLoaded hs
  | step s e _ ih => exact inv_step ih e

theorem reachable_run {s : State} (h : Reachable s) (es : List Event) :
    Reachable (run s es) := by
  induction es generalizing s with
  | nil => exact h
  | cons e rest ih => exact ih (Reachable.step s e h)

/-! ## Rendering lemmas -/

theorem bubbles_removeWelcome_removeTyping (c : List Node) :
    bubbles (removeWelcome (removeTyping c)) = bubbles (removeWelcome c) := by
  unfold removeWelcome
  induction c with
  | nil => rfl
  | cons n rest ih =>
    cases n with
    | welcome a b =>
      simp [removeTyping, List.eraseP_cons, Node.matchesWelcome, bubbles_removeTyping]
    | typing => simp [removeTyping, List.eraseP_cons, Node.matchesWelcome, bubbles]
    | message b =>
      by_cases hn : (Node.message b).matchesWelcome = true
      · simp [removeTyping, List.eraseP_cons, hn, bubbles_removeTyping]
      · simp [removeTyping, List.eraseP_cons, hn, bubbles, ih]

theorem removesBubble_removeTyping (c : List Node) :
    removesBubble (removeTyping c) = removesBubble c := by
  unfold removesBubble
  have hfind : (removeTyping c).find? Node.matchesWelcome = c.find? Node.matchesWelcome := by
    induction c with
    | nil => rfl
    | cons n rest ih =>
      cases n with
      | welcome a b => simp [removeTyping, List.find?_cons, Node.matchesWelcome]
      | typing => simp [removeTyping, List.find?_cons, Node.matchesWelcome]
      | message b =>
        by_cases hn : (Node.message b).matchesWelcome = true
        · simp [removeTyping, List.find?_cons, hn]
        · simp [removeTyping, List.find?_cons, hn, ih]
  rw [hfind]

theorem bubbles_reply (c : List Node) (b : Bubble) :
    bubbles (removeWelcome (removeTyping c) ++ [Node.message b]) =
      bubbles (removeWelcome c) ++ [b] := by
  rw [bubbles_append, bubbles_removeWelcome_removeTyping]
  rfl

theorem messageContent_text {r : String} (h : hasText (some r) = true) :
    messageContent (some r) false none = [ContentChild.text r] := by
  simp [messageContent, h]

theorem hasText_template (head tail : String) (c : Char) (hmem : c ∈ head.data)
    (hc : isJsWhitespace c = false) : hasText (some (head ++ tail)) = true := by
  apply hasText_of_mem _ hc
  rw [String.data_append]
  exact List.mem_append_left _ hmem

/-- The bubble `addMessage` builds for the assistant from a text that is not blank. -/
theorem addMessage_assistant {s : State} {r : String} (h : hasText (some r) = true) :
    addMessage s "assistant" (some r) false none =
      { s with container := removeWelcome s.container ++
          [Node.message { role := "assistant", avatar := "🏠",
                          content := [ContentChild.text r] }] } := by
  simp [addMessage, messageContent_text h]

theorem dropWhile_head_false {p : Char → Bool} :
    ∀ {l : List Char} {a : Char} {rest : List Char}, l.dropWhile p = a :: rest → p a = false
  | [], _, _, h => by simp at h
  | b :: l, a, rest, h => by
    by_cases hb : p b = true
    · rw [List.dropWhile_cons_of_pos hb] at h
      exact dropWhile_head_false h
    · rw [List.dropWhile_cons_of_neg hb] at h
      cases h
      simpa using hb

theorem exists_nonblank_of_trimChars_ne {l : List Char} (h : trimChars l ≠ []) :
    ∃ c ∈ trimChars l, isJsWhitespace c = false := by
  unfold trimChars at h ⊢
  cases hd : ((l.dropWhile isJsWhitespace).reverse.dropWhile isJsWhitespace) with
  | nil => rw [hd] at h; exact absurd rfl h
  | cons a rest => exact ⟨a, by simp, dropWhile_head_false hd⟩

/-- A trimmed text that is not empty passes the `content && content.trim()` test. -/
theorem hasText_jsTrim {r : String} (h : jsTrim r ≠ "") : hasText (some (jsTrim r)) = true := by
  rw [string_ne_empty_iff] at h
  obtain ⟨c, hc, hw⟩ := exists_nonblank_of_trimChars_ne h
  exact hasText_of_mem hc hw

/-- The bubbles after a delayed update whose branch appends `addMessage('assistant', r)`
for a text `r` that is not blank. -/
theorem bubbles_addMessage_assistant (s : State) {r : String} (h : hasText (some r) = true) :
    bubbles (addMessage (hideTyping s) "assistant" (some r) false none).container =
      bubbles (removeWelcome s.container) ++
        [{ role := "assistant", avatar := "🏠", content := [ContentChild.text r] }] := by
  rw [addMessage_assistant h]
  exact bubbles_reply _ _

/-- The later statements of the callback do not touch the container. -/
theorem finishSend_container (s : State) : (finishSend s).container = s.container := rfl

/-! ## The claims -/

/-- C1: when a pending chat request settles, on the response path and on the
network-error path alike (any outcome `o`), the delayed update is scheduled after
`remainingDelay e = max 0 (4000 - e)` where `e` is the elapsed time; for `e ≥ 0` this
wait is never negative, `e + remainingDelay e ≥ 4000`, and `e + remainingDelay e = 4000`
whenever `e ≤ 4000`. -/
theorem remaining_delay_contract (s : State) (i : Nat) (req : ChatReq) (o : ChatOutcome)
    (now : Int) (hreq : s.chats[i]? = some req) (he : 0 ≤ now - req.startTime) :
    (chatSettled s i o now).timers =
      s.timers ++ [{ id := s.nextTimerId, delay := remainingDelay (now - req.startTime),
                     task := TimerTask.delayedUpdate o }] ∧
    remainingDelay (now - req.startTime) = max 0 (4000 - (now - req.startTime)) ∧
    0 ≤ remainingDelay (now - req.startTime) ∧
    4000 ≤ (now - req.startTime) + remainingDelay (now - req.startTime) ∧
    (now - req.startTime ≤ 4000 →
      (now - req.startTime) + remainingDelay (now - req.startTime) = 4000) := by
  refine ⟨?_, rfl, ?_, ?_, ?_⟩
  · rw [chatSettled_some hreq]
  · exact le_max_left _ _
  · have := le_max_right 0 (minDelay - (now - req.startTime))
    simp only [remainingDelay, minDelay] at this ⊢
    omega
  · intro hle
    have hmax : max 0 (minDelay - (now - req.startTime)) = minDelay - (now - req.startTime) :=
      max_eq_right (by simp only [minDelay]; omega)
    simp only [remainingDelay, hmax, minDelay]
    omega

/-- Witness for C1: `Hello` sent at 1000 and failing at 2500 waits 2500 ms more. -/
theorem remaining_delay_contract_witness :
    helloSent.chats[0]? = some helloReq ∧ (0 : Int) ≤ 2500 - helloReq.startTime ∧
    (chatSettled helloSent 0 ChatOutcome.failure 2500).timers =
      helloSent.timers ++ [{ id := helloSent.nextTimerId,
                             delay := remainingDelay (2500 - helloReq.startTime),
                             task := TimerTask.delayedUpdate ChatOutcome.failure }] ∧
    remainingDelay (2500 - helloReq.startTime) = 2500 :=
  ⟨by decide, by decide,
   (remaining_delay_contract helloSent 0 helloReq ChatOutcome.failure 2500
     (by decide) (by decide)).1, by decide⟩

/-- C2: with no media selected and an empty or whitespace-only input, `sendMessage`
leaves the whole state as it was (no upload or chat request, no bubble, busy flag, send
button and input untouched); and when not busy, a media selection makes it issue exactly
one upload request, and otherwise a non-empty trimmed text makes it issue exactly one chat
request. -/
theorem send_rejected_iff_nothing_to_send (s : State) (now : Int) :
    (s.selectedMedia = none → jsTrim s.inputValue = "" → sendMessage s now = s) ∧
    (s.isTyping = false → ∀ f, s.selectedMedia = some f →
      (sendMessage s now).uploads = s.uploads ++
        [{ media := f, formMessage := strOr (jsTrim s.inputValue) defaultPrompt,
           message := jsTrim s.inputValue }] ∧
      (sendMessage s now).chats = s.chats) ∧
    (s.isTyping = false → s.selectedMedia = none → jsTrim s.inputValue ≠ "" →
      (sendMessage s now).uploads = s.uploads ∧
      (sendMessage s now).chats = s.chats ++
        [{ body := { message := jsTrim s.inputValue, media_analysis := none,
                     media_type := none },
           startTime := now }]) := by
  refine ⟨fun hsel hm => sendMessage_empty hm hsel now, ?_, ?_⟩
  · intro hty f hsel
    rw [sendMessage_media hty hsel]
    exact ⟨rfl, rfl⟩
  · intro hty hsel hm
    rw [sendMessage_text hty hsel hm]
    have e := busy_startChat (addMessage { s with isTyping := true, sendBtnDisabled := true }
      "user" (some (jsTrim s.inputValue)) false none) (jsTrim s.inputValue) none none now
    have e2 := (startChat_fields (addMessage
      { s with isTyping := true, sendBtnDisabled := true } "user"
      (some (jsTrim s.inputValue)) false none) (jsTrim s.inputValue) none none now).1
    refine ⟨e.1, ?_⟩
    rw [e2]
    simp [addMessage, strOr, hm]

/-- Witness for C2: a blank input sends nothing, a photo is uploaded, `Hello` is sent. -/
theorem send_rejected_iff_nothing_to_send_witness :
    sendMessage { State.initial with inputValue := " \n\t " } 0 =
      { State.initial with inputValue := " \n\t " } ∧
    (sendMessage { State.initial with selectedMedia := some photo } 0).uploads =
      [{ media := photo, formMessage := "What do you think about this?", message := "" }] ∧
    (sendMessage helloPage 1000).chats = [helloReq] :=
  ⟨(send_rejected_iff_nothing_to_send { State.initial with inputValue := " \n\t " } 0).1
      (by decide) (by decide),
   ((send_rejected_iff_nothing_to_send { State.initial with selectedMedia := some photo }
      0).2.1 (by decide) photo (by decide)).1,
   ((send_rejected_iff_nothing_to_send helloPage 1000).2.2 (by decide) (by decide)
      (by decide)).2⟩

/-- C10: `clearMediaSelection` leaves `selectedMedia`, `mediaAnalysis` and `mediaType`
all null, hides the preview and empties the file input; apart from these five fields the
state is untouched (in particular the busy flag, mood, safe mode and music); and clearing
twice is clearing once. -/
theorem clearMediaSelection_frame (s : State) :
    (clearMediaSelection s).selectedMedia = none ∧
    (clearMediaSelection s).mediaAnalysis = none ∧
    (clearMediaSelection s).mediaType = none ∧
    (clearMediaSelection s).mediaPreviewDisplay = "none" ∧
    (clearMediaSelection s).mediaInputValue = "" ∧
    (clearMediaSelection s).isTyping = s.isTyping ∧
    (clearMediaSelection s).currentMood = s.currentMood ∧
    (clearMediaSelection s).safeModeActive = s.safeModeActive ∧
    (clearMediaSelection s).music = s.music ∧
    { clearMediaSelection s with
      selectedMedia := s.selectedMedia, mediaAnalysis := s.mediaAnalysis,
      mediaType := s.mediaType, mediaPreviewDisplay := s.mediaPreviewDisplay,
      mediaInputValue := s.mediaInputValue } = s ∧
    clearMediaSelection (clearMediaSelection s) = clearMediaSelection s :=
  ⟨rfl, rfl, rfl, rfl, rfl, rfl, rfl, rfl, rfl, rfl, rfl⟩

/-- C3: in every state reachable from a loaded page by any interleaving of events
(sends, upload and chat settlements, timer firings, typing, media picks, history), at
most one chat request is in flight, and more strongly at most one upload, chat request
or pending delayed update exists; whenever one does, `isTyping` is true, the send button
is disabled, and `sendMessage` returns the state unchanged. -/
theorem busy_flag_excludes_second_send (s : State) (h : Reachable s) :
    s.chats.length ≤ 1 ∧
    s.uploads.length + s.chats.length + s.timers.countP Timer.isUpdate ≤ 1 ∧
    (0 < s.uploads.length + s.chats.length + s.timers.countP Timer.isUpdate →
      s.isTyping = true ∧ s.sendBtnDisabled = true ∧ ∀ now, sendMessage s now = s) := by
  have hinv := inv_of_reachable h
  have h1 := hinv.busy_le
  simp only [State.busy] at h1
  refine ⟨by omega, h1, ?_⟩
  intro hpos
  have hflag : s.isTyping = true := by
    rw [hinv.flag]
    simp only [State.busy, decide_eq_true_eq]
    omega
  exact ⟨hflag, by rw [hinv.button, hflag], fun now => sendMessage_busy hflag now⟩

/-- Witness for C3: with `Hello` in flight a second send (new text typed) does nothing. -/
theorem busy_flag_excludes_second_send_witness :
    Reachable (run helloPage [Event.sendMessage 1000, Event.typeInput "again"]) ∧
    (run helloPage [Event.sendMessage 1000, Event.typeInput "again"]).chats.length = 1 ∧
    sendMessage (run helloPage [Event.sendMessage 1000, Event.typeInput "again"]) 1500 =
      run helloPage [Event.sendMessage 1000, Event.typeInput "again"] :=
  ⟨reachable_run (Reachable.start helloPage (by decide)) _, by decide,
   ((busy_flag_excludes_second_send _
      (reachable_run (Reachable.start helloPage (by decide))
        [Event.sendMessage 1000, Event.typeInput "again"])).2.2 (by decide)).2.2 1500⟩

/-- C4: in every reachable state, when the delayed update of a chat request runs,
whatever the outcome it carries (OK with text, OK without text, non-OK response,
network failure), afterwards no typing indicator is on the page, `isTyping` is false, the
send button is enabled and the message input has focus. -/
theorem delayed_update_restores_controls (s : State) (h : Reachable s) (id : Nat)
    (c : Bool) (t : Timer) (o : ChatOutcome)
    (hf : s.timers.find? (fun t => t.id == id) = some t)
    (ho : t.task = TimerTask.delayedUpdate o) :
    (fireTimer s id c).container.countP Node.isTyping = 0 ∧
    (fireTimer s id c).isTyping = false ∧
    (fireTimer s id c).sendBtnDisabled = false ∧
    (fireTimer s id c).inputFocused = true := by
  have hinv := inv_fireTimer (inv_of_reachable h) id c
  have hb := hinv.indicator
  rw [fireTimer_update hf ho] at hinv hb ⊢
  obtain ⟨e1, e2, e3, _⟩ := delayedUpdate_common
    { s with timers := s.timers.eraseP (fun t => t.id == id) } o
  refine ⟨?_, e1, e2, e3⟩
  rw [hb]
  exact busy_zero_of_idle hinv e1

/-- Witness for C4: an HTTP 500 on `Hello`; timer 1 is its delayed update. -/
theorem delayed_update_restores_controls_witness :
    (fireTimer helloFailed 1 false).container.countP Node.isTyping = 0 ∧
    (fireTimer helloFailed 1 false).isTyping = false ∧
    (fireTimer helloFailed 1 false).sendBtnDisabled = false ∧
    (fireTimer helloFailed 1 false).inputFocused = true :=
  delayed_update_restores_controls helloFailed
    (reachable_run (Reachable.start helloPage (by decide)) _) 1 false
    { id := 1, delay := 3800,
      task := TimerTask.delayedUpdate (ChatOutcome.response false
        { response := none, mood := none, safe_space_mode := none,
          error := some "db down" }) }
    _ (by decide) rfl


/-- C5: a send of non-empty trimmed text `m`, no media, not busy: the chat request is
issued from a state `rendered` that already shows the user bubble with content exactly
`m` and no media indicator and has no new request yet; after the call that bubble is the
one bubble added at the end of the log, the request carries `m`, and the input is empty.
And when a delayed update carrying an OK response with non-blank text `r` runs, exactly
one further bubble is appended: role assistant, content exactly `r`.  In both steps the
bubbles before the new one are those left by `removeWelcome`, which are all the earlier
bubbles unless the element it removes is itself a bubble. -/
theorem text_send_renders_user_then_reply (s : State) (now : Int)
    (hty : s.isTyping = false) (hsel : s.selectedMedia = none)
    (hm : jsTrim s.inputValue ≠ "") :
    (∃ rendered : State,
      rendered.container = removeWelcome s.container ++
        [Node.message { role := "user", avatar := "👤",
                        content := [ContentChild.text (jsTrim s.inputValue)] }] ∧
      rendered.chats = s.chats ∧
      sendMessage s now = startChat rendered (jsTrim s.inputValue) none none now) ∧
    bubbles (sendMessage s now).container = bubbles (removeWelcome s.container) ++
      [{ role := "user", avatar := "👤",
         content := [ContentChild.text (jsTrim s.inputValue)] }] ∧
    (removesBubble s.container = false →
      bubbles (sendMessage s now).container = bubbles s.container ++
        [{ role := "user", avatar := "👤",
           content := [ContentChild.text (jsTrim s.inputValue)] }]) ∧
    (sendMessage s now).chats = s.chats ++
      [{ body := { message := jsTrim s.inputValue, media_analysis := none,
                   media_type := none },
         startTime := now }] ∧
    (sendMessage s now).inputValue = "" ∧
    ∀ (p : State) (id : Nat) (c : Bool) (t : Timer) (data : ChatData) (r : String),
      p.timers.find? (fun t => t.id == id) = some t →
      t.task = TimerTask.delayedUpdate (ChatOutcome.response true data) →
      data.response = some r → jsTrim r ≠ "" →
      bubbles (fireTimer p id c).container = bubbles (removeWelcome p.container) ++
        [{ role := "assistant", avatar := "🏠", content := [ContentChild.text r] }] ∧
      (removesBubble p.container = false →
        bubbles (fireTimer p id c).container = bubbles p.container ++
          [{ role := "assistant", avatar := "🏠", content := [ContentChild.text r] }]) := by
  have htext := hasText_jsTrim hm
  have hsend := sendMessage_text hty hsel hm now
  have hcont : (addMessage { s with isTyping := true, sendBtnDisabled := true } "user"
      (some (jsTrim s.inputValue)) false none).container =
      removeWelcome s.container ++
        [Node.message { role := "user", avatar := "👤",
                        content := [ContentChild.text (jsTrim s.inputValue)] }] := by
    simp [addMessage, messageContent_text htext]
  obtain ⟨f1, f2, _⟩ := startChat_fields
    (addMessage { s with isTyping := true, sendBtnDisabled := true } "user"
      (some (jsTrim s.inputValue)) false none) (jsTrim s.inputValue) none none now
  obtain ⟨_, _, _, f3, _⟩ := busy_startChat
    (addMessage { s with isTyping := true, sendBtnDisabled := true } "user"
      (some (jsTrim s.inputValue)) false none) (jsTrim s.inputValue) none none now
  have hbub : bubbles (sendMessage s now).container = bubbles (removeWelcome s.container) ++
      [{ role := "user", avatar := "👤",
         content := [ContentChild.text (jsTrim s.inputValue)] }] := by
    rw [hsend, f3, hcont]
    simp [bubbles_append, bubbles]
  refine ⟨⟨_, hcont, rfl, hsend⟩, hbub, ?_, ?_, ?_, ?_⟩
  · intro hclean
    rw [hbub, bubbles_removeWelcome hclean]
  · rw [hsend, f1]
    simp [strOr, hm, addMessage]
  · rw [hsend, f2]
  · intro p id c t data r hf ho hr hne
    have hrt : hasText data.response = true := by rw [hr]; exact (hasText_some r).mpr hne
    rw [fireTimer_update hf ho]
    have key : delayedUpdate { p with timers := p.timers.eraseP (fun t => t.id == id) }
        (ChatOutcome.response true data) =
        finishSend
          (if data.safe_space_mode = some true then
            (setTimeout
              (if truthy data.mood then
                updateMoodVisuals
                  (addMessage (hideTyping
                    { p with timers := p.timers.eraseP (fun t => t.id == id) })
                    "assistant" data.response false none)
                  (data.mood.getD "") data.safe_space_mode
               else
                addMessage (hideTyping
                  { p with timers := p.timers.eraseP (fun t => t.id == id) })
                  "assistant" data.response false none)
              TimerTask.calmPrompt 1000).1
           else
            (if truthy data.mood then
              updateMoodVisuals
                (addMessage (hideTyping
                  { p with timers := p.timers.eraseP (fun t => t.id == id) })
                  "assistant" data.response false none)
                (data.mood.getD "") data.safe_space_mode
             else
              addMessage (hideTyping
                { p with timers := p.timers.eraseP (fun t => t.id == id) })
                "assistant" data.response false none)) := by
      simp [delayedUpdate, hrt]
    rw [key, finishSend_container]
    have hb := bubbles_addMessage_assistant
      { p with timers := p.timers.eraseP (fun t => t.id == id) } ((hasText_some r).mpr hne)
    rw [← hr] at hb
    have hgen : bubbles
        (if data.safe_space_mode = some true then
          (setTimeout
            (if truthy data.mood then
              updateMoodVisuals
                (addMessage (hideTyping
                  { p with timers := p.timers.eraseP (fun t => t.id == id) })
                  "assistant" data.response false none)
                (data.mood.getD "") data.safe_space_mode
             else
              addMessage (hideTyping
                { p with timers := p.timers.eraseP (fun t => t.id == id) })
                "assistant" data.response false none)
            TimerTask.calmPrompt 1000).1
         else
          (if truthy data.mood then
            updateMoodVisuals
              (addMessage (hideTyping
                { p with timers := p.timers.eraseP (fun t => t.id == id) })
                "assistant" data.response false none)
              (data.mood.getD "") data.safe_space_mode
           else
            addMessage (hideTyping
              { p with timers := p.timers.eraseP (fun t => t.id == id) })
              "assistant" data.response false none)).container =
        bubbles (removeWelcome p.container) ++
          [{ role := "assistant", avatar := "🏠", content := [ContentChild.text r] }] := by
      by_cases hs : data.safe_space_mode = some true <;>
      by_cases hmo : truthy data.mood = true <;>
      simpa [hs, hmo, setTimeout, updateMoodVisuals, updateMoodIndicator] using hb
    refine ⟨hgen, ?_⟩
    intro hclean
    rw [hgen, bubbles_removeWelcome hclean]

/-- Witness for C5: `Hello` is shown at once and `Hi there!` after the delay. -/
theorem text_send_renders_user_then_reply_witness :
    bubbles (sendMessage helloPage 1000).container = bubbles helloPage.container ++
      [{ role := "user", avatar := "👤", content := [ContentChild.text "Hello"] }] ∧
    bubbles (fireTimer helloAnswered 1 false).container = bubbles helloAnswered.container ++
      [{ role := "assistant", avatar := "🏠", content := [ContentChild.text "Hi there!"] }] :=
  ⟨(text_send_renders_user_then_reply helloPage 1000 (by decide) (by decide)
      (by decide)).2.2.1 (by decide),
   ((text_send_renders_user_then_reply helloPage 1000 (by decide) (by decide)
      (by decide)).2.2.2.2.2 helloAnswered 1 false
      { id := 1, delay := 3800,
        task := TimerTask.delayedUpdate (ChatOutcome.response true
          { response := some "Hi there!", mood := some "happy",
            safe_space_mode := some false, error := none }) }
      { response := some "Hi there!", mood := some "happy", safe_space_mode := some false,
        error := none }
      "Hi there!" (by decide) rfl rfl (by decide)).2 (by decide)⟩

/-- C6: when a delayed update carrying a non-OK response runs, exactly one bubble is
appended, attributed to the assistant: `Sorry, I encountered an error: ` followed by the
body's error string `e` when that is non-empty, and followed by `Unknown error` when the
error field is absent or empty; the mood and safe-mode state stay as they were.  The
bubbles before the new one are those left by `removeWelcome`, which are all the earlier
bubbles unless the element it removes is itself a bubble. -/
theorem http_error_bubble (s : State) (id : Nat) (c : Bool) (t : Timer) (data : ChatData)
    (hf : s.timers.find? (fun t => t.id == id) = some t)
    (ho : t.task = TimerTask.delayedUpdate (ChatOutcome.response false data)) :
    (∀ e, data.error = some e → e ≠ "" →
      bubbles (fireTimer s id c).container = bubbles (removeWelcome s.container) ++
        [{ role := "assistant", avatar := "🏠",
           content := [ContentChild.text ("Sorry, I encountered an error: " ++ e)] }]) ∧
    (data.error = none ∨ data.error = some "" →
      bubbles (fireTimer s id c).container = bubbles (removeWelcome s.container) ++
        [{ role := "assistant", avatar := "🏠",
           content := [ContentChild.text
             "Sorry, I encountered an error: Unknown error"] }]) ∧
    (removesBubble s.container = false →
      bubbles (removeWelcome s.container) = bubbles s.container) ∧
    moodState (fireTimer s id c) = moodState s := by
  rw [fireTimer_update hf ho]
  have key :
      bubbles (delayedUpdate { s with timers := s.timers.eraseP (fun t => t.id == id) }
        (ChatOutcome.response false data)).container =
      bubbles (removeWelcome s.container) ++
        [{ role := "assistant", avatar := "🏠",
           content := [ContentChild.text
             ("Sorry, I encountered an error: " ++ optOr data.error "Unknown error")] }] := by
    have ht := hasText_template "Sorry, I encountered an error: "
      (optOr data.error "Unknown error") 'S' (by decide) (by decide)
    exact bubbles_addMessage_assistant
      { s with timers := s.timers.eraseP (fun t => t.id == id) } ht
  refine ⟨?_, ?_, bubbles_removeWelcome, rfl⟩
  · intro e he hne
    rw [key, he]
    simp [optOr, strOr, hne]
  · intro he
    rw [key]
    rcases he with he | he <;> rw [he] <;> rfl

/-- Witness for C6: HTTP 500 with `{error: "db down"}`. -/
theorem http_error_bubble_witness :
    bubbles (fireTimer helloFailed 1 false).container = bubbles helloFailed.container ++
      [{ role := "assistant", avatar := "🏠",
         content := [ContentChild.text "Sorry, I encountered an error: db down"] }] :=
  ((http_error_bubble helloFailed 1 false
    { id := 1, delay := 3800,
      task := TimerTask.delayedUpdate (ChatOutcome.response false
        { response := none, mood := none, safe_space_mode := none,
          error := some "db down" }) }
    { response := none, mood := none, safe_space_mode := none, error := some "db down" }
    (by decide) rfl).2.2.1 (by decide)) ▸
  (http_error_bubble helloFailed 1 false
    { id := 1, delay := 3800,
      task := TimerTask.delayedUpdate (ChatOutcome.response false
        { response := none, mood := none, safe_space_mode := none,
          error := some "db down" }) }
    { response := none, mood := none, safe_space_mode := none, error := some "db down" }
    (by decide) rfl).1 "db down" rfl (by decide)

/-- C7: when a delayed update carrying an OK response without text runs (`response`
absent or null, or empty or whitespace-only), exactly one bubble is appended, attributed to
the assistant and reading the fallback text (not the placeholder, not empty); the mood
and safe-mode state stay as they were whatever `mood` and `safe_space_mode` the payload
has, and the only timer added is the one hiding the video, so no calm-mode prompt is
scheduled.  The bubbles before the new one are those left by `removeWelcome`, which are
all the earlier bubbles unless the element it removes is itself a bubble. -/
theorem empty_response_fallback (s : State) (id : Nat) (c : Bool) (t : Timer)
    (data : ChatData) (hf : s.timers.find? (fun t => t.id == id) = some t)
    (ho : t.task = TimerTask.delayedUpdate (ChatOutcome.response true data))
    (hempty : data.response = none ∨ ∃ r, data.response = some r ∧ jsTrim r = "") :
    bubbles (fireTimer s id c).container = bubbles (removeWelcome s.container) ++
      [{ role := "assistant", avatar := "🏠",
         content := [ContentChild.text
           "I'm here, but I'm having trouble responding right now. Please try again."] }] ∧
    (removesBubble s.container = false →
      bubbles (removeWelcome s.container) = bubbles s.container) ∧
    moodState (fireTimer s id c) = moodState s ∧
    (fireTimer s id c).timers = s.timers.eraseP (fun t => t.id == id) ++
      [{ id := s.nextTimerId, delay := 500, task := TimerTask.hideVideo }] ∧
    (fireTimer s id c).calmOverlays = s.calmOverlays := by
  have hno : hasText data.response = false := by
    rcases hempty with h | ⟨r, h, hr⟩
    · rw [h]; rfl
    · rw [h]
      cases hh : hasText (some r) with
      | false => rfl
      | true => exact absurd hr ((hasText_some r).mp hh)
  rw [fireTimer_update hf ho]
  have key : delayedUpdate { s with timers := s.timers.eraseP (fun t => t.id == id) }
      (ChatOutcome.response true data) =
      finishSend (addMessage
        (hideTyping { s with timers := s.timers.eraseP (fun t => t.id == id) }) "assistant"
        (some "I'm here, but I'm having trouble responding right now. Please try again.")
        false none) := by
    simp [delayedUpdate, hno]
  rw [key]
  refine ⟨?_, bubbles_removeWelcome, rfl, rfl, rfl⟩
  rw [finishSend_container]
  exact bubbles_addMessage_assistant
    { s with timers := s.timers.eraseP (fun t => t.id == id) } (by decide)

/-- Witness for C7: a `200` with `{response: "  ", mood: "sad", safe_space_mode: true}`. -/
theorem empty_response_fallback_witness :
    bubbles (fireTimer helloBlank 1 true).container = bubbles helloBlank.container ++
      [{ role := "assistant", avatar := "🏠",
         content := [ContentChild.text
           "I'm here, but I'm having trouble responding right now. Please try again."] }] ∧
    moodState (fireTimer helloBlank 1 true) = moodState helloBlank :=
  ⟨((empty_response_fallback helloBlank 1 true
      { id := 1, delay := 3800,
        task := TimerTask.delayedUpdate (ChatOutcome.response true
          { response := some "  ", mood := some "sad", safe_space_mode := some true,
            error := none }) }
      { response := some "  ", mood := some "sad", safe_space_mode := some true,
        error := none }
      (by decide) rfl (Or.inr ⟨"  ", rfl, by decide⟩)).2.1 (by decide)) ▸
    (empty_response_fallback helloBlank 1 true
      { id := 1, delay := 3800,
        task := TimerTask.delayedUpdate (ChatOutcome.response true
          { response := some "  ", mood := some "sad", safe_space_mode := some true,
            error := none }) }
      { response := some "  ", mood := some "sad", safe_space_mode := some true,
        error := none }
      (by decide) rfl (Or.inr ⟨"  ", rfl, by decide⟩)).1,
   (empty_response_fallback helloBlank 1 true
      { id := 1, delay := 3800,
        task := TimerTask.delayedUpdate (ChatOutcome.response true
          { response := some "  ", mood := some "sad", safe_space_mode := some true,
            error := none }) }
      { response := some "  ", mood := some "sad", safe_space_mode := some true,
        error := none }
      (by decide) rfl (Or.inr ⟨"  ", rfl, by decide⟩)).2.2.1⟩

/-- C8: a send with a media selection (not busy) queues the upload only: no chat request
is issued and no bubble is rendered.  When a pending upload then fails, the error text
`msg` is the body's `error` string for a non-OK response that has a non-empty one,
`Failed to upload media` for a non-OK response whose `error` is absent or empty, and the
message of the thrown error for a transport failure.  Then still no chat request is
issued, exactly one bubble is appended, attributed to the assistant and reading
`Sorry, I had trouble analyzing your T. msg` with `T` the media type or `media`, and the
state is reset: `isTyping` false, send button enabled, `selectedMedia`, `mediaAnalysis`
and `mediaType` all null.  The bubbles before the new one are those left by
`removeWelcome`, which are all the earlier bubbles unless the element it removes is
itself a bubble. -/
theorem upload_failure_resets (p : State) (f : MediaFile) (now : Int)
    (hty : p.isTyping = false) (hsel : p.selectedMedia = some f) :
    ((sendMessage p now).chats = p.chats ∧
     bubbles (sendMessage p now).container = bubbles p.container ∧
     (sendMessage p now).uploads = p.uploads ++
       [{ media := f, formMessage := strOr (jsTrim p.inputValue) defaultPrompt,
          message := jsTrim p.inputValue }]) ∧
    ∀ (s : State) (i : Nat) (req : UploadReq) (o : UploadOutcome) (msg : String) (t : Int),
      s.uploads[i]? = some req →
      ((∃ e, e ≠ "" ∧ o = UploadOutcome.httpError (some e) ∧ msg = e) ∨
       (o = UploadOutcome.httpError none ∧ msg = "Failed to upload media") ∨
       (o = UploadOutcome.httpError (some "") ∧ msg = "Failed to upload media") ∨
       o = UploadOutcome.thrown msg) →
      (uploadSettled s i o t).chats = s.chats ∧
      (uploadSettled s i o t).uploads = s.uploads.eraseIdx i ∧
      (uploadSettled s i o t).container = removeWelcome (removeTyping s.container) ++
        [Node.message
          { role := "assistant", avatar := "🏠",
            content := [ContentChild.text ("Sorry, I had trouble analyzing your " ++
              optOr s.mediaType "media" ++ ". " ++ msg)] }] ∧
      bubbles (uploadSettled s i o t).container = bubbles (removeWelcome s.container) ++
        [{ role := "assistant", avatar := "🏠",
           content := [ContentChild.text ("Sorry, I had trouble analyzing your " ++
             optOr s.mediaType "media" ++ ". " ++ msg)] }] ∧
      (removesBubble s.container = false →
        bubbles (removeWelcome s.container) = bubbles s.container) ∧
      (uploadSettled s i o t).isTyping = false ∧
      (uploadSettled s i o t).sendBtnDisabled = false ∧
      (uploadSettled s i o t).selectedMedia = none ∧
      (uploadSettled s i o t).mediaAnalysis = none ∧
      (uploadSettled s i o t).mediaType = none := by
  constructor
  · rw [sendMessage_media hty hsel]
    refine ⟨rfl, ?_, rfl⟩
    simp [showTyping, bubbles_append, bubbles]
  · intro s i req o msg t hreq ho
    have hmsg : uploadErrorMessage o = some msg := by
      rcases ho with ⟨e, hne, ho, hm⟩ | ⟨ho, hm⟩ | ⟨ho, hm⟩ | ho
      · rw [ho, hm]; simp [uploadErrorMessage, optOr, strOr, hne]
      · rw [ho, hm]; rfl
      · rw [ho, hm]; rfl
      · rw [ho]; rfl
    rw [uploadSettled_failed hreq hmsg]
    have ht : hasText (some ("Sorry, I had trouble analyzing your " ++
        optOr s.mediaType "media" ++ ". " ++ msg)) = true := by
      apply hasText_of_mem (c := 'S') _ (by decide)
      rw [String.data_append, String.data_append, String.data_append]
      exact List.mem_append_left _ (List.mem_append_left _ (List.mem_append_left _
        (by decide)))
    refine ⟨rfl, rfl, ?_, ?_, bubbles_removeWelcome, rfl, rfl, rfl, rfl, rfl⟩
    · simp [clearMediaSelection, addMessage, hideTyping, messageContent_text ht]
    · exact bubbles_addMessage_assistant { s with uploads := s.uploads.eraseIdx i } ht

/-- Witness for C8: the upload of `cat.png` is refused with `{error: "too large"}`, is
refused without an `error`, and fails in transport. -/
theorem upload_failure_resets_witness :
    (sendMessage { State.initial with selectedMedia := some photo } 0).chats = [] ∧
    (uploadSettled photoSent 0 (UploadOutcome.httpError (some "too large"))
      1300).container = removeWelcome (removeTyping photoSent.container) ++
      [Node.message
        { role := "assistant", avatar := "🏠",
          content := [ContentChild.text ("Sorry, I had trouble analyzing your " ++
            optOr photoSent.mediaType "media" ++ ". " ++ "too large")] }] ∧
    (uploadSettled photoSent 0 (UploadOutcome.httpError none)
      1300).container = removeWelcome (removeTyping photoSent.container) ++
      [Node.message
        { role := "assistant", avatar := "🏠",
          content := [ContentChild.text ("Sorry, I had trouble analyzing your " ++
            optOr photoSent.mediaType "media" ++ ". " ++ "Failed to upload media")] }] ∧
    (uploadSettled photoSent 0 (UploadOutcome.thrown "Failed to fetch")
      1300).container = removeWelcome (removeTyping photoSent.container) ++
      [Node.message
        { role := "assistant", avatar := "🏠",
          content := [ContentChild.text ("Sorry, I had trouble analyzing your " ++
            optOr photoSent.mediaType "media" ++ ". " ++ "Failed to fetch")] }] ∧
    "Sorry, I had trouble analyzing your " ++ optOr photoSent.mediaType "media" ++ ". " ++
      "Failed to upload media" =
      "Sorry, I had trouble analyzing your image. Failed to upload media" ∧
    (uploadSettled photoSent 0 (UploadOutcome.httpError (some "too large"))
      1300).selectedMedia = none :=
  ⟨(upload_failure_resets { State.initial with selectedMedia := some photo } photo 0
      (by decide) (by decide)).1.1,
   ((upload_failure_resets { State.initial with selectedMedia := some photo } photo 0
      (by decide) (by decide)).2 photoSent 0
      { media := photo, formMessage := "What do you think about this?", message := "" }
      (UploadOutcome.httpError (some "too large")) "too large" 1300
      (by decide) (Or.inl ⟨"too large", by decide, rfl, rfl⟩)).2.2.1,
   ((upload_failure_resets { State.initial with selectedMedia := some photo } photo 0
      (by decide) (by decide)).2 photoSent 0
      { media := photo, formMessage := "What do you think about this?", message := "" }
      (UploadOutcome.httpError none) "Failed to upload media" 1300
      (by decide) (Or.inr (Or.inl ⟨rfl, rfl⟩))).2.2.1,
   ((upload_failure_resets { State.initial with selectedMedia := some photo } photo 0
      (by decide) (by decide)).2 photoSent 0
      { media := photo, formMessage := "What do you think about this?", message := "" }
      (UploadOutcome.thrown "Failed to fetch") "Failed to fetch" 1300
      (by decide) (Or.inr (Or.inr (Or.inr rfl)))).2.2.1,
   by decide,
   ((upload_failure_resets { State.initial with selectedMedia := some photo } photo 0
      (by decide) (by decide)).2 photoSent 0
      { media := photo, formMessage := "What do you think about this?", message := "" }
      (UploadOutcome.httpError (some "too large")) "too large" 1300
      (by decide) (Or.inl ⟨"too large", by decide, rfl, rfl⟩)).2.2.2.2.2.2.2.1⟩

/-- C9 (the code at the failing input): a photo is picked, the send button is clicked
and the upload is refused.  The call has passed both guards and has ended: the flag is
cleared and the button enabled, but the message input is left without focus, while the
sibling exit (a chat request that fails, from the same click) ends with the focus on the
input. -/
theorem upload_failure_exit_skips_focus :
    photoSent.isTyping = true ∧
    (uploadSettled photoSent 0 (UploadOutcome.httpError (some "too large"))
      1300).isTyping = false ∧
    (uploadSettled photoSent 0 (UploadOutcome.httpError (some "too large"))
      1300).sendBtnDisabled = false ∧
    (uploadSettled photoSent 0 (UploadOutcome.httpError (some "too large"))
      1300).uploads = [] ∧
    (uploadSettled photoSent 0 (UploadOutcome.httpError (some "too large"))
      1300).inputFocused = false ∧
    (run helloPage [Event.blurInput, Event.sendMessage 1000,
      Event.chatSettled 0 ChatOutcome.failure 1300,
      Event.timerFired 1 false]).inputFocused = true := by
  decide

theorem bubbles_removeWelcome_length {c : List Node} (h : removesBubble c = true) :
    (bubbles (removeWelcome c)).length + 1 = (bubbles c).length := by
  unfold removeWelcome
  induction c with
  | nil => simp [removesBubble] at h
  | cons n rest ih =>
    by_cases hn : n.matchesWelcome = true
    · cases n with
      | welcome a b => simp [removesBubble, List.find?_cons, Node.matchesWelcome] at h
      | message b => simp [List.eraseP_cons, hn, bubbles]
      | typing => simp [Node.matchesWelcome] at hn
    · have hrest : removesBubble rest = true := by
        simpa [removesBubble, List.find?_cons, hn] using h
      have := ih hrest
      cases n <;> simp_all [List.eraseP_cons, bubbles]

/-- C13 (counterexample): the log shows one bubble, rendered from a history entry whose
role is `welcome-message`.  The next `addMessage('user', 'second')` removes that bubble
(it is what `.welcome-message` finds) and the log shows only the new one. -/
theorem addMessage_removes_welcome_class_bubble :
    bubbles strayPage.container =
      [{ role := "welcome-message", avatar := "🏠",
         content := [ContentChild.text "first"] }] ∧
    bubbles (addMessage strayPage "user" (some "second") false none).container =
      [{ role := "user", avatar := "👤", content := [ContentChild.text "second"] }] ∧
    bubbles (addMessage strayPage "user" (some "second") false none).container ≠
      bubbles strayPage.container ++
        [{ role := "user", avatar := "👤", content := [ContentChild.text "second"] }] := by
  decide

/-- C13 (amended): for every role and content, `addMessage` removes the first element of
the log that carries the class `welcome-message`, if there is one, and puts exactly one
bubble at the end.  Unless the removed element is itself a bubble, every earlier bubble
is unchanged and in order; if it is a bubble, the log has as many bubbles as before.
When the content is null, empty or whitespace-only the new bubble shows the placeholder
markup; otherwise its text child is the content verbatim (not trimmed), preceded only by
the media indicator when one applies. -/
theorem addMessage_appends_one_bubble (s : State) (role : String)
    (content : Option String) (hasMedia : Bool) (mediaTypeStr : Option String) :
    ∃ b : Bubble,
      (addMessage s role content hasMedia mediaTypeStr).container =
        removeWelcome s.container ++ [Node.message b] ∧
      bubbles (addMessage s role content hasMedia mediaTypeStr).container =
        bubbles (removeWelcome s.container) ++ [b] ∧
      (removesBubble s.container = false →
        bubbles (addMessage s role content hasMedia mediaTypeStr).container =
          bubbles s.container ++ [b]) ∧
      (removesBubble s.container = true →
        (bubbles (addMessage s role content hasMedia mediaTypeStr).container).length =
          (bubbles s.container).length) ∧
      b.role = role ∧
      b.avatar = (if role = "user" then "👤" else "🏠") ∧
      ((content = none ∨ ∃ c, content = some c ∧ jsTrim c = "") →
        b.content = [ContentChild.html "<em>Message could not be loaded</em>"]) ∧
      (∀ c, content = some c → jsTrim c ≠ "" →
        b.content =
          (if hasMedia && truthy mediaTypeStr then
            [ContentChild.mediaIndicator
                (if mediaTypeStr = some "image" then "📷 Image shared"
                 else "🎥 Video shared"),
              ContentChild.br]
           else []) ++ [ContentChild.text c]) := by
  have hbub : bubbles (addMessage s role content hasMedia mediaTypeStr).container =
      bubbles (removeWelcome s.container) ++
        [{ role := role, avatar := if role = "user" then "👤" else "🏠",
           content := messageContent content hasMedia mediaTypeStr }] := by
    simp only [addMessage]
    rw [bubbles_append]
    rfl
  refine ⟨_, rfl, hbub, ?_, ?_, rfl, rfl, ?_, ?_⟩
  · intro hclean
    rw [hbub, bubbles_removeWelcome hclean]
  · intro hstray
    rw [hbub, List.length_append, ← bubbles_removeWelcome_length hstray]
    rfl
  · intro h
    have hno : hasText content = false := by
      rcases h with h | ⟨c, h, hc⟩
      · rw [h]; rfl
      · rw [h]
        cases hh : hasText (some c) with
        | false => rfl
        | true => exact absurd hc ((hasText_some c).mp hh)
    simp [messageContent, hno]
  · intro c hc hne
    subst hc
    have hyes : hasText (some c) = true := (hasText_some c).mpr hne
    simp [messageContent, hyes]

/-- Witness for C13 (amended): a blank history entry and an untrimmed reply on a page
that already shows `Hello`. -/
theorem addMessage_appends_one_bubble_witness :
    bubbles (addMessage helloSent "assistant" (some " \n") false none).container =
      bubbles helloSent.container ++
        [{ role := "assistant", avatar := "🏠",
           content := [ContentChild.html "<em>Message could not be loaded</em>"] }] ∧
    bubbles (addMessage helloSent "assistant" (some " Hi! ") false none).container =
      bubbles helloSent.container ++
        [{ role := "assistant", avatar := "🏠",
           content := [ContentChild.text " Hi! "] }] :=
  ⟨by
    obtain ⟨b, _, _, hb, _, hr, ha, hblank, _⟩ :=
      addMessage_appends_one_bubble helloSent "assistant" (some " \n") false none
    have hc := hblank (Or.inr ⟨" \n", rfl, by decide⟩)
    rw [hb (by decide)]
    cases b
    simp_all,
   by
    obtain ⟨b, _, _, hb, _, hr, ha, _, htext⟩ :=
      addMessage_appends_one_bubble helloSent "assistant" (some " Hi! ") false none
    have hc := htext " Hi! " rfl (by decide)
    rw [hb (by decide)]
    cases b
    simp_all⟩

theorem log1024_eq_log : ∀ (fuel n : Nat), n ≤ fuel → log1024 fuel n = Nat.log 1024 n
  | 0, n, h => by
    have hn : n = 0 := by omega
    subst hn
    simp [log1024]
  | fuel + 1, n, h => by
    by_cases hlt : n < 1024
    · simp [log1024, hlt, Nat.log_of_lt hlt]
    · have hle : 1024 ≤ n := by omega
      rw [Nat.log_of_one_lt_of_le (by norm_num) hle]
      simp only [log1024, hlt, if_false]
      rw [log1024_eq_log fuel (n / 1024) (by omega)]

theorem unitIndex_eq_log (b : Nat) : unitIndex b = Nat.log 1024 b :=
  log1024_eq_log b b (le_refl b)

/-- C19: `formatFileSize(0)` is `0 Bytes`; for every byte count `b` with
`1 ≤ b < 1024^4` the unit index is at most 3, the table has an entry for it (which is the
unit printed), and `1024^i ≤ b < 1024^(i+1)`, that is the scaled value `b / 1024^i` lies
in `[1, 1024)`; for `b ≥ 1024^4` the index is 4 or more and the table has no entry. -/
theorem formatFileSize_unit_in_table :
    formatFileSize 0 = "0 Bytes" ∧
    (∀ b : Nat, 1 ≤ b → b < 1024 ^ 4 →
      unitIndex b ≤ 3 ∧
      (∃ u, sizes[unitIndex b]? = some u ∧
        formatFileSize b = showHundredths (scaledHundredths b (unitIndex b)) ++ " " ++ u) ∧
      1024 ^ unitIndex b ≤ b ∧ b < 1024 * 1024 ^ unitIndex b) ∧
    (∀ b : Nat, 1024 ^ 4 ≤ b → 4 ≤ unitIndex b ∧ sizes[unitIndex b]? = none) := by
  refine ⟨rfl, ?_, ?_⟩
  · intro b hb hlt
    have hne : b ≠ 0 := by omega
    have hi : unitIndex b < 4 := by
      rw [unitIndex_eq_log]
      exact (Nat.lt_pow_iff_log_lt (by norm_num) hne).mp hlt
    have hlen : unitIndex b < sizes.length := by simpa [sizes] using hi
    refine ⟨by omega, ⟨sizes[unitIndex b], List.getElem?_eq_getElem hlen, ?_⟩, ?_, ?_⟩
    · simp [formatFileSize, hne, List.getElem?_eq_getElem hlen]
    · rw [unitIndex_eq_log]
      exact Nat.pow_log_le_self 1024 hne
    · have := Nat.lt_pow_succ_log_self (b := 1024) (by norm_num) b
      rw [Nat.succ_eq_add_one, pow_succ] at this
      rw [unitIndex_eq_log]
      omega
  · intro b hb
    have hpos : 0 < 1024 ^ 4 := by norm_num
    have hne : b ≠ 0 := by omega
    have hi : 4 ≤ unitIndex b := by
      rw [unitIndex_eq_log]
      exact Nat.le_log_of_pow_le (by norm_num) hb
    exact ⟨hi, List.getElem?_eq_none (by simpa [sizes] using hi)⟩

/-- Witness for C19: 2048 bytes print as `2 KB`, 1.5 MiB as `1.5 MB`, and one tebibyte
finds no unit. -/
theorem formatFileSize_unit_in_table_witness :
    formatFileSize 2048 = "2 KB" ∧ formatFileSize 1572864 = "1.5 MB" ∧
    unitIndex 2048 ≤ 3 ∧ 4 ≤ unitIndex (1024 ^ 4) ∧ sizes[unitIndex (1024 ^ 4)]? = none :=
  ⟨by decide, by decide,
   (formatFileSize_unit_in_table.2.1 2048 (by decide) (by decide)).1,
   (formatFileSize_unit_in_table.2.2 (1024 ^ 4) (le_refl _)).1,
   (formatFileSize_unit_in_table.2.2 (1024 ^ 4) (le_refl _)).2⟩

/-- C14 (the code at the failing input): with a photo selected, a PDF is picked.  The
file of the selection is replaced, but `mediaType` and the preview icon of the photo
survive, although the MIME type of the PDF starts with neither `image/` nor `video/`; the
same PDF picked on a fresh page leaves `mediaType` null, so the selection is not
determined by the picked file alone. -/
theorem handleMediaSelect_keeps_stale_type :
    (handleMediaSelect State.initial (some photo)).mediaType = some "image" ∧
    jsStartsWith report.type "image/" = false ∧
    jsStartsWith report.type "video/" = false ∧
    (handleMediaSelect (handleMediaSelect State.initial (some photo))
      (some report)).selectedMedia = some report ∧
    (handleMediaSelect (handleMediaSelect State.initial (some photo))
      (some report)).mediaType = some "image" ∧
    (handleMediaSelect (handleMediaSelect State.initial (some photo))
      (some report)).mediaPreviewIcon = "📷" ∧
    (handleMediaSelect State.initial (some report)).mediaType = none := by
  decide

/-- C16 (counterexample): on a page already in safe-space mode an OK reply with text and
`safe_space_mode: true` schedules the calm prompt again, although safe mode is not newly
active. -/
theorem calm_prompt_offered_when_already_active :
    calmPage.safeModeActive = some true ∧
    hasText calmData.response = true ∧
    ¬ ((∃ t ∈ (fireTimer calmPage 1 false).timers, t.task = TimerTask.calmPrompt) ↔
        (calmData.safe_space_mode = some true ∧ calmPage.safeModeActive = some false)) := by
  decide

/-- C16 (amended): when the delayed update of an OK reply with non-blank text runs, the
mood and safe-mode state are set to the reply's `mood` and `safe_space_mode` if `mood` is
a non-empty string and are left as they were otherwise; and the calm prompt is scheduled
exactly when the reply has `safe_space_mode` true, whatever `safeModeActive` was: the
timers added are the prompt (only in that case) and the one hiding the video. -/
theorem reply_sets_mood_and_offers_prompt (s : State) (id : Nat) (c : Bool) (t : Timer)
    (data : ChatData) (hf : s.timers.find? (fun t => t.id == id) = some t)
    (ho : t.task = TimerTask.delayedUpdate (ChatOutcome.response true data))
    (htext : hasText data.response = true) :
    (truthy data.mood = true →
      (fireTimer s id c).currentMood = data.mood.getD "" ∧
      (fireTimer s id c).safeModeActive = data.safe_space_mode ∧
      (fireTimer s id c).safeSpaceClass = decide (data.safe_space_mode = some true)) ∧
    (truthy data.mood = false → moodState (fireTimer s id c) = moodState s) ∧
    (fireTimer s id c).timers = s.timers.eraseP (fun t => t.id == id) ++
      (if data.safe_space_mode = some true then
        [{ id := s.nextTimerId, delay := 1000, task := TimerTask.calmPrompt },
         { id := s.nextTimerId + 1, delay := 500, task := TimerTask.hideVideo }]
       else [{ id := s.nextTimerId, delay := 500, task := TimerTask.hideVideo }]) := by
  rw [fireTimer_update hf ho]
  by_cases hm : truthy data.mood = true <;>
  by_cases hs : data.safe_space_mode = some true <;>
  simp [delayedUpdate, htext, hm, hs, finishSend, setTimeout, addMessage, hideTyping,
    updateMoodVisuals, updateMoodIndicator, moodState]

/-- Witness for C16 (amended): the reply `calmData` on `calmPage`. -/
theorem reply_sets_mood_and_offers_prompt_witness :
    (fireTimer calmPage 1 false).currentMood = "anxious" ∧
    (fireTimer calmPage 1 false).safeModeActive = some true ∧
    (fireTimer calmPage 1 false).timers =
      [{ id := 2, delay := 1000, task := TimerTask.calmPrompt },
       { id := 3, delay := 500, task := TimerTask.hideVideo }] :=
  ⟨((reply_sets_mood_and_offers_prompt calmPage 1 false
      { id := 1, delay := 3800,
        task := TimerTask.delayedUpdate (ChatOutcome.response true calmData) }
      calmData (by decide) rfl (by decide)).1 (by decide)).1,
   ((reply_sets_mood_and_offers_prompt calmPage 1 false
      { id := 1, delay := 3800,
        task := TimerTask.delayedUpdate (ChatOutcome.response true calmData) }
      calmData (by decide) rfl (by decide)).1 (by decide)).2.1,
   (reply_sets_mood_and_offers_prompt calmPage 1 false
      { id := 1, delay := 3800,
        task := TimerTask.delayedUpdate (ChatOutcome.response true calmData) }
      calmData (by decide) rfl (by decide)).2.2⟩

/-- C12: `saveJournalEntry` issues no request when the journal content is empty or
whitespace-only, and `saveReminder` issues none when the trimmed title, the date or the
time is empty; in both cases the form fields stay as they are.  When the required fields
are present each issues exactly one request, the create POST carrying the trimmed text
and the other fields. -/
theorem create_needs_required_fields (p : Panels) :
    (jsTrim p.journalContent = "" →
      (saveJournalEntry p).requests = p.requests ∧
      (saveJournalEntry p).fields = p.fields) ∧
    (jsTrim p.journalContent ≠ "" →
      (saveJournalEntry p).requests = p.requests ++
        [PanelRequest.postJournal (jsTrim p.journalContent) p.journalMood]) ∧
    ((jsTrim p.reminderTitle = "" ∨ p.reminderDate = "" ∨ p.reminderTime = "") →
      (saveReminder p).requests = p.requests ∧ (saveReminder p).fields = p.fields) ∧
    (jsTrim p.reminderTitle ≠ "" → p.reminderDate ≠ "" → p.reminderTime ≠ "" →
      (saveReminder p).requests = p.requests ++
        [PanelRequest.postReminder (jsTrim p.reminderTitle) p.reminderDate p.reminderTime
          p.reminderRepeat]) := by
  refine ⟨?_, ?_, ?_, ?_⟩
  · intro h
    simp [saveJournalEntry, h, Panels.fields]
  · intro h
    simp [saveJournalEntry, h]
  · intro h
    simp [saveReminder, h, Panels.fields]
  · intro h1 h2 h3
    simp [saveReminder, h1, h2, h3]

/-- Witness for C12: the journal text is posted once, the reminder without a time is
not; a blank journal is not posted either. -/
theorem create_needs_required_fields_witness :
    (saveJournalEntry draftPanels).requests =
      [PanelRequest.postJournal "A good day." "good"] ∧
    (saveReminder draftPanels).requests = [] ∧
    (saveReminder draftPanels).fields = draftPanels.fields ∧
    (saveJournalEntry { draftPanels with journalContent := "  \n" }).requests = [] ∧
    (saveReminder { draftPanels with reminderTime := "09:00" }).requests =
      [PanelRequest.postReminder "Drink a glass of water 💧" "2026-11-05" "09:00" "daily"] :=
  ⟨(create_needs_required_fields draftPanels).2.1 (by decide),
   ((create_needs_required_fields draftPanels).2.2.1 (Or.inr (Or.inr rfl))).1,
   ((create_needs_required_fields draftPanels).2.2.1 (Or.inr (Or.inr rfl))).2,
   ((create_needs_required_fields { draftPanels with journalContent := "  \n" }).1
      (by decide)).1,
   (create_needs_required_fields { draftPanels with reminderTime := "09:00" }).2.2.2
      (by decide) (by decide) (by decide)⟩

/-! ## Player lemmas -/

theorem setAudioVolume_of_accepted {v : JSNum} (h : volumeAccepted v = true) :
    ∃ q, v = JSNum.num q ∧ 0 ≤ q ∧ q ≤ 1 ∧
      ∀ m : MusicState, setAudioVolume m v = some { m with audioVolume := q } := by
  cases v with
  | nan => simp [volumeAccepted] at h
  | inf n => simp [volumeAccepted] at h
  | num q =>
    have hq : 0 ≤ q ∧ q ≤ 1 := by simpa [volumeAccepted] using h
    exact ⟨q, rfl, hq.1, hq.2, fun m => by simp [setAudioVolume, hq]⟩

theorem setAudioVolume_of_rejected {v : JSNum} (h : volumeAccepted v = false) :
    ∀ m : MusicState, setAudioVolume m v = none := by
  intro m
  cases v with
  | nan => rfl
  | inf n => rfl
  | num q =>
    have hq : ¬ (0 ≤ q ∧ q ≤ 1) := by simpa [volumeAccepted] using h
    simp [setAudioVolume, hq]

theorem mkRat_one_two : mkRat 1 2 = (1 / 2 : ℚ) := by norm_num

/-- C11 (counterexample): `changeMusicVolume("5")` stores 5 and issues no preference
request, because the element refuses the volume before `saveMusicPreferences` is
reached; and with 5 stored, music enabled and track 3 listed, `changeMusicTrack("3")`
issues none either. -/
theorem volume_out_of_range_is_not_persisted :
    parseFloat "5" = JSNum.num 5 ∧
    (changeMusicVolume MusicState.initial "5").musicVolume = JSNum.num 5 ∧
    (changeMusicVolume MusicState.initial "5").prefPosts = MusicState.initial.prefPosts ∧
    loudMusic.musicEnabled = true ∧
    (loudMusic.musicTracks.find?
      (fun t => decide (JSNum.num (t.id : ℚ) = parseInt "3"))).isSome = true ∧
    (changeMusicTrack loudMusic "3" true).currentTrack = JSNum.num 3 ∧
    (changeMusicTrack loudMusic "3" true).prefPosts = loudMusic.prefPosts := by
  decide

/-- C11 (amended): `toggleBackgroundMusic` always issues exactly one preference request.
`changeMusicVolume(v)` writes the parsed `v` to the element's volume; `changeMusicTrack(t)`
writes the stored volume, and only when music is enabled and `t` names a listed track.
Each issues exactly one request unless that write is refused (the value is not a number
in `[0, 1]`), and none when it is.  The body of a request is the state after the action:
the toggled flag, the track parsed from `t`, the volume parsed from `v`, the two other
fields as they were before. -/
theorem music_actions_persist_state (m : MusicState) :
    (∀ allowed,
      (toggleBackgroundMusic m allowed).prefPosts = m.prefPosts ++
        [{ music_enabled := !m.musicEnabled, current_track := m.currentTrack,
           volume := m.musicVolume }] ∧
      (toggleBackgroundMusic m allowed).musicEnabled = !m.musicEnabled ∧
      (toggleBackgroundMusic m allowed).currentTrack = m.currentTrack ∧
      (toggleBackgroundMusic m allowed).musicVolume = m.musicVolume) ∧
    (∀ v, volumeAccepted (parseFloat v) = true →
      (changeMusicVolume m v).prefPosts = m.prefPosts ++
        [{ music_enabled := m.musicEnabled, current_track := m.currentTrack,
           volume := parseFloat v }] ∧
      (changeMusicVolume m v).musicEnabled = m.musicEnabled ∧
      (changeMusicVolume m v).currentTrack = m.currentTrack ∧
      (changeMusicVolume m v).musicVolume = parseFloat v) ∧
    (∀ v, volumeAccepted (parseFloat v) = false →
      (changeMusicVolume m v).prefPosts = m.prefPosts) ∧
    (∀ t allowed,
      (m.musicEnabled = false ∨
       m.musicTracks.find? (fun x => decide (JSNum.num (x.id : ℚ) = parseInt t)) = none ∨
       volumeAccepted m.musicVolume = true) →
      (changeMusicTrack m t allowed).prefPosts = m.prefPosts ++
        [{ music_enabled := m.musicEnabled, current_track := parseInt t,
           volume := m.musicVolume }] ∧
      (changeMusicTrack m t allowed).musicEnabled = m.musicEnabled ∧
      (changeMusicTrack m t allowed).currentTrack = parseInt t ∧
      (changeMusicTrack m t allowed).musicVolume = m.musicVolume) ∧
    (∀ t allowed track, m.musicEnabled = true →
      m.musicTracks.find? (fun x => decide (JSNum.num (x.id : ℚ) = parseInt t)) =
        some track →
      volumeAccepted m.musicVolume = false →
      (changeMusicTrack m t allowed).prefPosts = m.prefPosts) := by
  refine ⟨?_, ?_, ?_, ?_, ?_⟩
  · intro allowed
    cases hen : m.musicEnabled <;> cases hin : m.musicInitialized <;> cases allowed <;>
      simp [toggleBackgroundMusic, playBackgroundMusic, audioPlay, audioPause,
        saveMusicPreferences, hen, hin]
  · intro v hv
    obtain ⟨q, hq, _, _, hset⟩ := setAudioVolume_of_accepted hv
    simp [changeMusicVolume, hset, saveMusicPreferences]
  · intro v hv
    have hset := setAudioVolume_of_rejected hv
    simp [changeMusicVolume, hset]
  · intro t allowed hcond
    unfold changeMusicTrack
    cases hen : m.musicEnabled with
    | false => simp [saveMusicPreferences, hen]
    | true =>
      simp only [hen, if_true]
      cases hfind : m.musicTracks.find?
          (fun x => decide (JSNum.num (x.id : ℚ) = parseInt t)) with
      | none => simp [saveMusicPreferences, hen]
      | some track =>
        have hv : volumeAccepted m.musicVolume = true := by
          rcases hcond with h | h | h
          · rw [hen] at h; cases h
          · rw [hfind] at h; cases h
          · exact h
        obtain ⟨q, hq, _, _, hset⟩ := setAudioVolume_of_accepted hv
        cases hp : m.audioPaused <;>
          simp [setAudioSrc, hset, saveMusicPreferences, audioLoad, audioPlay, hen, hp]
  · intro t allowed track hen hfind hv
    have hset := setAudioVolume_of_rejected hv
    simp [changeMusicTrack, hen, hfind, hset, setAudioSrc]

/-- Witness for C11 (amended): on the initial player the toggle, the slider value `0.8`
and the track `3` are each persisted once; so is the track `3` when 5 is stored and the
music is switched off; the slider value `5` is not. -/
theorem music_actions_persist_state_witness :
    (toggleBackgroundMusic MusicState.initial true).prefPosts =
      [{ music_enabled := false, current_track := JSNum.num 2,
         volume := JSNum.num (mkRat 1 2) }] ∧
    parseFloat "0.8" = JSNum.num (mkRat 4 5) ∧
    (changeMusicVolume MusicState.initial "0.8").prefPosts =
      [{ music_enabled := true, current_track := JSNum.num 2,
         volume := parseFloat "0.8" }] ∧
    (changeMusicVolume MusicState.initial "5").prefPosts = [] ∧
    parseInt "3" = JSNum.num 3 ∧
    (changeMusicTrack MusicState.initial "3" true).prefPosts =
      [{ music_enabled := true, current_track := parseInt "3",
         volume := JSNum.num (mkRat 1 2) }] ∧
    (changeMusicTrack
      { MusicState.initial with musicEnabled := false, musicVolume := JSNum.num 5 }
      "3" true).prefPosts =
      [{ music_enabled := false, current_track := parseInt "3",
         volume := JSNum.num 5 }] :=
  ⟨((music_actions_persist_state MusicState.initial).1 true).1,
   by decide,
   ((music_actions_persist_state MusicState.initial).2.1 "0.8" (by decide)).1,
   (music_actions_persist_state MusicState.initial).2.2.1 "5" (by decide),
   by decide,
   ((music_actions_persist_state MusicState.initial).2.2.2.1 "3" true
      (Or.inr (Or.inr (by decide)))).1,
   ((music_actions_persist_state
      { MusicState.initial with musicEnabled := false, musicVolume := JSNum.num 5 }).2.2.2.1
      "3" true (Or.inl rfl)).1⟩

theorem trackId_eq_two (t : Track) :
    decide (JSNum.num (t.id : ℚ) = JSNum.num 2) = decide (t.id = 2) := by
  have h : (JSNum.num (t.id : ℚ) = JSNum.num 2) ↔ t.id = 2 := by
    constructor
    · intro h
      have h2 : (t.id : ℚ) = ((2 : Int) : ℚ) := by
        simpa using h
      exact_mod_cast h2
    · intro h
      rw [h]
      norm_num
  simp only [h]

/-- C15: when the preference request fails while the player is not initialized, the
globals still hold their defaults (track 2, volume 0.5) and the loaded track list is not
empty, `loadUserMusicPreferences` initializes the player: `musicInitialized` is true, the
element's volume is 0.5, its source is the URL of the first listed track with id 2 if
there is one and of the first track otherwise, and the media is loaded; a further
`initializeMusic` call returns without changing anything. -/
theorem preference_failure_initializes_defaults (m : MusicState) (first : Track)
    (rest : List Track) (hinit : m.musicInitialized = false)
    (htracks : m.musicTracks = first :: rest) (htrack : m.currentTrack = JSNum.num 2)
    (hvol : m.musicVolume = JSNum.num (1 / 2)) :
    (loadUserMusicPreferences m none).musicInitialized = true ∧
    (loadUserMusicPreferences m none).audioVolume = 1 / 2 ∧
    (loadUserMusicPreferences m none).musicVolume = JSNum.num (1 / 2) ∧
    (∀ t, m.musicTracks.find? (fun t => decide (t.id = 2)) = some t →
      (loadUserMusicPreferences m none).audioSrc = t.url) ∧
    (m.musicTracks.find? (fun t => decide (t.id = 2)) = none →
      (loadUserMusicPreferences m none).audioSrc = first.url) ∧
    (loadUserMusicPreferences m none).audioCalls = m.audioCalls ++ [AudioCall.load] ∧
    initializeMusic (loadUserMusicPreferences m none) =
      (loadUserMusicPreferences m none, false) := by
  have hacc : volumeAccepted m.musicVolume = true := by
    rw [hvol]
    simp only [volumeAccepted, decide_eq_true_eq]
    constructor <;> norm_num
  obtain ⟨q, hq, _, _, hset⟩ := setAudioVolume_of_accepted hacc
  have hqv : q = 1 / 2 := by
    rw [hvol] at hq
    exact (JSNum.num.inj hq).symm
  have hpred : (fun t : Track => decide (JSNum.num (t.id : ℚ) = m.currentTrack)) =
      (fun t : Track => decide (t.id = 2)) := by
    funext t
    rw [htrack]
    exact trackId_eq_two t
  have key : loadUserMusicPreferences m none =
      { audioLoad
          { setAudioSrc m
              ((m.musicTracks.find? (fun t => decide (t.id = 2))).getD first).url with
            audioVolume := q, audioListeners := m.audioListeners + 1 } with
        musicInitialized := true } := by
    simp [loadUserMusicPreferences, preferencesCatch, initializeMusic, hinit, htracks, hset,
      hpred, setAudioSrc, audioLoad]
  rw [key]
  refine ⟨rfl, hqv, ?_, ?_, ?_, rfl, ?_⟩
  · simpa [audioLoad, setAudioSrc] using hvol
  · intro t ht
    simp [audioLoad, setAudioSrc, ht]
  · intro hnone
    simp [audioLoad, setAudioSrc, hnone]
  · simp [initializeMusic, audioLoad, setAudioSrc]

/-- Witness for C15: both start-up requests fail; the fallback list has a track 2. -/
theorem preference_failure_initializes_defaults_witness :
    (loadUserMusicPreferences (loadMusicTracks MusicState.initial none)
      none).musicInitialized = true ∧
    (loadUserMusicPreferences (loadMusicTracks MusicState.initial none)
      none).audioVolume = 1 / 2 ∧
    (loadUserMusicPreferences (loadMusicTracks MusicState.initial none) none).audioSrc =
      "https://res.cloudinary.com/dbiamsdnr/video/upload/Chill_Lofi_Beats_By_Art_Is_Sound_2_ta1t9m.mp3" :=
  ⟨(preference_failure_initializes_defaults (loadMusicTracks MusicState.initial none)
      { id := 1, name := "Lofi Beats 1",
        url := "https://res.cloudinary.com/dbiamsdnr/video/upload/Chill_Lofi_Beats_By_Art_Is_Sound_1_x131mw.mp3" }
      _ rfl rfl rfl (congrArg JSNum.num mkRat_one_two)).1,
   (preference_failure_initializes_defaults (loadMusicTracks MusicState.initial none)
      { id := 1, name := "Lofi Beats 1",
        url := "https://res.cloudinary.com/dbiamsdnr/video/upload/Chill_Lofi_Beats_By_Art_Is_Sound_1_x131mw.mp3" }
      _ rfl rfl rfl (congrArg JSNum.num mkRat_one_two)).2.1,
   (preference_failure_initializes_defaults (loadMusicTracks MusicState.initial none)
      { id := 1, name := "Lofi Beats 1",
        url := "https://res.cloudinary.com/dbiamsdnr/video/upload/Chill_Lofi_Beats_By_Art_Is_Sound_1_x131mw.mp3" }
      _ rfl rfl rfl (congrArg JSNum.num mkRat_one_two)).2.2.2.1
      { id := 2, name := "Lofi Beats 2",
        url := "https://res.cloudinary.com/dbiamsdnr/video/upload/Chill_Lofi_Beats_By_Art_Is_Sound_2_ta1t9m.mp3" }
      (by decide)⟩

/-- C17 (counterexample): track 2 is playing and the stored volume is 5 (the slider
handed `5` to `changeMusicVolume`).  `changeMusicTrack("3")` names a listed track and
swaps the source to it, but issues neither `load` nor `play`, and the element is left
paused: the assignment of the volume throws first. -/
theorem track_change_stops_playback_on_refused_volume :
    loudMusic.musicEnabled = true ∧
    loudMusic.audioPaused = false ∧
    loudMusic.musicVolume = JSNum.num 5 ∧
    (loudMusic.musicTracks.find?
      (fun t => decide (JSNum.num (t.id : ℚ) = parseInt "3"))).isSome = true ∧
    (changeMusicTrack loudMusic "3" true).audioSrc =
      "https://res.cloudinary.com/dbiamsdnr/video/upload/Chill_Lofi_Beats_By_Art_Is_Sound_3_lsq9ek.mp3" ∧
    (changeMusicTrack loudMusic "3" true).audioCalls = loudMusic.audioCalls ∧
    (changeMusicTrack loudMusic "3" true).audioPaused = true := by
  decide

/-- C17 (amended): with music enabled, a track id naming a listed track, and a stored
volume that is a number in `[0, 1]`, `changeMusicTrack` swaps the source to that track's
URL, reloads, and issues `play` exactly when the audio was playing before the call; the
element ends paused if it was paused, and playing if it was playing and playback is
allowed. -/
theorem track_change_preserves_playing_state (m : MusicState) (trackId : String)
    (allowed : Bool) (track : Track) (hen : m.musicEnabled = true)
    (hfind : m.musicTracks.find?
      (fun t => decide (JSNum.num (t.id : ℚ) = parseInt trackId)) = some track)
    (hvol : volumeAccepted m.musicVolume = true) :
    (changeMusicTrack m trackId allowed).audioSrc = track.url ∧
    (changeMusicTrack m trackId allowed).audioCalls =
      m.audioCalls ++ [AudioCall.load] ++ (if m.audioPaused then [] else [AudioCall.play]) ∧
    (m.audioPaused = true → (changeMusicTrack m trackId allowed).audioPaused = true) ∧
    (m.audioPaused = false → allowed = true →
      (changeMusicTrack m trackId allowed).audioPaused = false) := by
  obtain ⟨q, hq, _, _, hset⟩ := setAudioVolume_of_accepted hvol
  cases hp : m.audioPaused <;> cases allowed <;>
    simp [changeMusicTrack, hen, hfind, hset, setAudioSrc, audioLoad, audioPlay,
      saveMusicPreferences, hp]

/-- Witness for C17 (amended): track 2 is playing at volume 0.5 and track 3 is chosen. -/
theorem track_change_preserves_playing_state_witness :
    (changeMusicTrack playingMusic "3" true).audioSrc =
      "https://res.cloudinary.com/dbiamsdnr/video/upload/Chill_Lofi_Beats_By_Art_Is_Sound_3_lsq9ek.mp3" ∧
    (changeMusicTrack playingMusic "3" true).audioCalls =
      playingMusic.audioCalls ++ [AudioCall.load] ++
        (if playingMusic.audioPaused then [] else [AudioCall.play]) ∧
    playingMusic.audioPaused = false ∧
    (changeMusicTrack playingMusic "3" true).audioPaused = false :=
  ⟨(track_change_preserves_playing_state playingMusic "3" true
      { id := 3, name := "Lofi Beats 3",
        url := "https://res.cloudinary.com/dbiamsdnr/video/upload/Chill_Lofi_Beats_By_Art_Is_Sound_3_lsq9ek.mp3" }
      (by decide) (by decide) (by decide)).1,
   (track_change_preserves_playing_state playingMusic "3" true
      { id := 3, name := "Lofi Beats 3",
        url := "https://res.cloudinary.com/dbiamsdnr/video/upload/Chill_Lofi_Beats_By_Art_Is_Sound_3_lsq9ek.mp3" }
      (by decide) (by decide) (by decide)).2.1,
   by decide,
   (track_change_preserves_playing_state playingMusic "3" true
      { id := 3, name := "Lofi Beats 3",
        url := "https://res.cloudinary.com/dbiamsdnr/video/upload/Chill_Lofi_Beats_By_Art_Is_Sound_3_lsq9ek.mp3" }
      (by decide) (by decide) (by decide)).2.2.2 (by decide) rfl⟩

/-! ## Volumes -/

theorem volumes_of_eq {m n : MusicState} (hv : n.musicVolume = m.musicVolume)
    (hp : n.prefPosts = m.prefPosts) (h : VolumesInRange m) : VolumesInRange n := by
  unfold VolumesInRange at *
  rw [hv, hp]
  exact h

theorem volumes_of_post {m n : MusicState} (hv : n.musicVolume = m.musicVolume)
    (hp : ∃ b : PrefBody, b.volume = m.musicVolume ∧ n.prefPosts = m.prefPosts ++ [b])
    (h : VolumesInRange m) : VolumesInRange n := by
  obtain ⟨b, hb, hp⟩ := hp
  unfold VolumesInRange at *
  rw [hv, hp]
  refine ⟨h.1, ?_⟩
  intro x hx
  rcases List.mem_append.mp hx with hx | hx
  · exact h.2 x hx
  · have hxb : x = b := by simpa using hx
    rw [hxb, hb]
    exact h.1

theorem setAudioVolume_frame {m n : MusicState} {v : JSNum} (h : setAudioVolume m v = some n) :
    n.musicVolume = m.musicVolume ∧ n.prefPosts = m.prefPosts := by
  cases v with
  | nan => simp [setAudioVolume] at h
  | inf b => simp [setAudioVolume] at h
  | num q =>
    by_cases hq : 0 ≤ q ∧ q ≤ 1
    · simp only [setAudioVolume, hq, and_self, if_true, Option.some.injEq] at h
      subst h
      exact ⟨rfl, rfl⟩
    · simp [setAudioVolume, hq] at h

theorem playBackgroundMusic_frame (m : MusicState) (allowed : Bool) :
    (playBackgroundMusic m allowed).musicVolume = m.musicVolume ∧
    (playBackgroundMusic m allowed).prefPosts = m.prefPosts := by
  cases hen : m.musicEnabled <;> cases hin : m.musicInitialized <;> cases allowed <;>
    simp [playBackgroundMusic, audioPlay, hen, hin]

theorem startMusicAfterInteraction_frame (m : MusicState) (allowed : Bool) :
    (startMusicAfterInteraction m allowed).musicVolume = m.musicVolume ∧
    (startMusicAfterInteraction m allowed).prefPosts = m.prefPosts := by
  cases hen : m.musicEnabled <;> cases hin : m.musicInitialized <;>
    simp [startMusicAfterInteraction, audioPlay, hen, hin]

theorem initializeMusic_frame (m : MusicState) :
    (initializeMusic m).1.musicVolume = m.musicVolume ∧
    (initializeMusic m).1.prefPosts = m.prefPosts := by
  cases hin : m.musicInitialized with
  | true => simp [initializeMusic, hin]
  | false =>
    cases htr : m.musicTracks with
    | nil => simp [initializeMusic, hin, htr]
    | cons first rest =>
      cases hacc : volumeAccepted m.musicVolume with
      | false =>
        have hset := setAudioVolume_of_rejected hacc
        simp [initializeMusic, hin, htr, hset, setAudioSrc]
      | true =>
        obtain ⟨q, _, _, _, hset⟩ := setAudioVolume_of_accepted hacc
        simp [initializeMusic, hin, htr, hset, setAudioSrc, audioLoad]

theorem preferencesCatch_frame (m : MusicState) :
    (preferencesCatch m).musicVolume = m.musicVolume ∧
    (preferencesCatch m).prefPosts = m.prefPosts := by
  unfold preferencesCatch
  split
  · exact initializeMusic_frame m
  · exact ⟨rfl, rfl⟩

theorem volumes_mediaReady (allowed : Bool) :
    ∀ (l : List Nat) (m : MusicState), VolumesInRange m →
      VolumesInRange (l.foldl (fun m _ => playBackgroundMusic m allowed) m)
  | [], _, h => h
  | _ :: rest, m, h =>
    volumes_mediaReady allowed rest _
      (volumes_of_eq (playBackgroundMusic_frame m allowed).1
        (playBackgroundMusic_frame m allowed).2 h)

theorem loadUserMusicPreferences_frame (m : MusicState) (preferences : Preferences) :
    (loadUserMusicPreferences m (some preferences)).musicVolume =
      JSNum.num preferences.volume ∧
    (loadUserMusicPreferences m (some preferences)).prefPosts = m.prefPosts := by
  unfold loadUserMusicPreferences
  simp only
  split
  · split
    · rw [(preferencesCatch_frame _).1, (preferencesCatch_frame _).2,
        (initializeMusic_frame _).1, (initializeMusic_frame _).2]
      exact ⟨rfl, rfl⟩
    · rw [(initializeMusic_frame _).1, (initializeMusic_frame _).2]
      exact ⟨rfl, rfl⟩
  · exact ⟨rfl, rfl⟩

theorem volumes_loadUserMusicPreferences {m : MusicState} (h : VolumesInRange m)
    (outcome : Option Preferences)
    (hin : (MusicEvent.preferencesLoaded outcome).volumeInRange = true) :
    VolumesInRange (loadUserMusicPreferences m outcome) := by
  cases outcome with
  | none =>
    exact volumes_of_eq (preferencesCatch_frame m).1 (preferencesCatch_frame m).2 h
  | some preferences =>
    have hacc : volumeAccepted (JSNum.num preferences.volume) = true := hin
    obtain ⟨hv, hp⟩ := loadUserMusicPreferences_frame m preferences
    unfold VolumesInRange
    rw [hv, hp]
    exact ⟨hacc, h.2⟩

theorem volumes_toggle {m : MusicState} (h : VolumesInRange m) (allowed : Bool) :
    VolumesInRange (toggleBackgroundMusic m allowed) := by
  apply volumes_of_post (m := m) _ _ h
  · cases hen : m.musicEnabled <;> cases hin : m.musicInitialized <;> cases allowed <;>
      simp [toggleBackgroundMusic, playBackgroundMusic, audioPlay, audioPause,
        saveMusicPreferences, hen, hin]
  · refine ⟨{ music_enabled := !m.musicEnabled, current_track := m.currentTrack,
              volume := m.musicVolume }, rfl, ?_⟩
    cases hen : m.musicEnabled <;> cases hin : m.musicInitialized <;> cases allowed <;>
      simp [toggleBackgroundMusic, playBackgroundMusic, audioPlay, audioPause,
        saveMusicPreferences, hen, hin]

theorem volumes_changeMusicVolume {m : MusicState} (h : VolumesInRange m) (v : String)
    (hin : volumeAccepted (parseFloat v) = true) :
    VolumesInRange (changeMusicVolume m v) := by
  obtain ⟨q, hq, _, _, hset⟩ := setAudioVolume_of_accepted hin
  have hbase : VolumesInRange { m with musicVolume := parseFloat v } := ⟨hin, h.2⟩
  apply volumes_of_post (m := { m with musicVolume := parseFloat v }) _ _ hbase
  · simp [changeMusicVolume, hset, saveMusicPreferences]
  · exact ⟨{ music_enabled := m.musicEnabled, current_track := m.currentTrack,
             volume := parseFloat v }, rfl, by
      simp [changeMusicVolume, hset, saveMusicPreferences]⟩

theorem volumes_changeMusicTrack {m : MusicState} (h : VolumesInRange m) (t : String)
    (allowed : Bool) : VolumesInRange (changeMusicTrack m t allowed) := by
  obtain ⟨q, hq, _, _, hset⟩ := setAudioVolume_of_accepted h.1
  apply volumes_of_post (m := m) _ _ h
  · cases hen : m.musicEnabled <;>
    cases hfind : m.musicTracks.find?
        (fun x => decide (JSNum.num (x.id : ℚ) = parseInt t)) <;>
    cases hp : m.audioPaused <;>
      simp [changeMusicTrack, hen, hfind, hset, setAudioSrc, audioLoad, audioPlay,
        saveMusicPreferences, hp]
  · refine ⟨{ music_enabled := m.musicEnabled, current_track := parseInt t,
              volume := m.musicVolume }, rfl, ?_⟩
    cases hen : m.musicEnabled <;>
    cases hfind : m.musicTracks.find?
        (fun x => decide (JSNum.num (x.id : ℚ) = parseInt t)) <;>
    cases hp : m.audioPaused <;>
      simp [changeMusicTrack, hen, hfind, hset, setAudioSrc, audioLoad, audioPlay,
        saveMusicPreferences, hp]

theorem volumes_musicStep {m : MusicState} (h : VolumesInRange m) (e : MusicEvent)
    (hin : e.volumeInRange = true) : VolumesInRange (musicStep m e) := by
  cases e with
  | tracksLoaded outcome => exact ⟨h.1, h.2⟩
  | preferencesLoaded outcome => exact volumes_loadUserMusicPreferences h outcome hin
  | mediaReady allowed => exact volumes_mediaReady allowed _ m h
  | click allowed =>
    simp only [musicStep]
    split
    · exact volumes_of_eq (startMusicAfterInteraction_frame _ allowed).1
        (startMusicAfterInteraction_frame _ allowed).2 ⟨h.1, h.2⟩
    · exact h
  | keypress allowed =>
    simp only [musicStep]
    split
    · exact volumes_of_eq (startMusicAfterInteraction_frame _ allowed).1
        (startMusicAfterInteraction_frame _ allowed).2 ⟨h.1, h.2⟩
    · exact h
  | toggle allowed => exact volumes_toggle h allowed
  | changeTrack t allowed => exact volumes_changeMusicTrack h t allowed
  | changeVolume v => exact volumes_changeMusicVolume h v hin

theorem volumes_musicRun : ∀ (es : List MusicEvent) (m : MusicState), VolumesInRange m →
    (∀ e ∈ es, e.volumeInRange = true) → VolumesInRange (musicRun m es)
  | [], _, h, _ => h
  | e :: rest, m, h, hes =>
    volumes_musicRun rest (musicStep m e)
      (volumes_musicStep h e (hes e (List.mem_cons_self e rest)))
      (fun x hx => hes x (List.mem_cons_of_mem e hx))

/-- C18 (counterexample): from the initial player, `changeMusicVolume("5")` leaves 5 in
`musicVolume`, and the next toggle persists it; a stored preference with volume 7 is
taken over as it is.  Neither 5 nor 7 lies in `[0, 1]`. -/
theorem stored_volume_leaves_unit_interval :
    (musicRun MusicState.initial [MusicEvent.changeVolume "5"]).musicVolume =
      JSNum.num 5 ∧
    (musicRun MusicState.initial
      [MusicEvent.changeVolume "5", MusicEvent.toggle true]).prefPosts =
      [{ music_enabled := false, current_track := JSNum.num 2, volume := JSNum.num 5 }] ∧
    (musicRun MusicState.initial
      [MusicEvent.preferencesLoaded
        (some { music_enabled := true, current_track := some 3, volume := 7 })]).musicVolume =
      JSNum.num 7 ∧
    ¬ ((5 : ℚ) ≤ 1) ∧ ¬ ((7 : ℚ) ≤ 1) := by
  decide

/-- C18 (amended): if every volume brought in along the way is a number in `[0, 1]`
(each value parsed by `changeMusicVolume` and the volume of each loaded preference), then
in the state reached from the initial player by any sequence of player events the stored
volume is a number in `[0, 1]`, and so is the volume of every preference request
issued. -/
theorem volume_in_range_for_ranged_inputs (es : List MusicEvent)
    (h : ∀ e ∈ es, e.volumeInRange = true) :
    (∃ q : ℚ, (musicRun MusicState.initial es).musicVolume = JSNum.num q ∧
      0 ≤ q ∧ q ≤ 1) ∧
    ∀ b ∈ (musicRun MusicState.initial es).prefPosts,
      ∃ q : ℚ, b.volume = JSNum.num q ∧ 0 ≤ q ∧ q ≤ 1 := by
  have hinit : VolumesInRange MusicState.initial := by
    refine ⟨by decide, ?_⟩
    intro b hb
    simp [MusicState.initial] at hb
  have hrun := volumes_musicRun es MusicState.initial hinit h
  constructor
  · obtain ⟨q, hq, h0, h1, _⟩ := setAudioVolume_of_accepted hrun.1
    exact ⟨q, hq, h0, h1⟩
  · intro b hb
    obtain ⟨q, hq, h0, h1, _⟩ := setAudioVolume_of_accepted (hrun.2 b hb)
    exact ⟨q, hq, h0, h1⟩

/-- Witness for C18 (amended): preferences with volume 0.3 are loaded, the slider is
moved to `0.8` and the music is switched off. -/
theorem volume_in_range_for_ranged_inputs_witness :
    (∀ e ∈ [MusicEvent.tracksLoaded none,
            MusicEvent.preferencesLoaded
              (some { music_enabled := true, current_track := some 3,
                      volume := mkRat 3 10 }),
            MusicEvent.changeVolume "0.8", MusicEvent.toggle true],
      e.volumeInRange = true) ∧
    (∃ q : ℚ, (musicRun MusicState.initial
        [MusicEvent.tracksLoaded none,
         MusicEvent.preferencesLoaded
           (some { music_enabled := true, current_track := some 3,
                   volume := mkRat 3 10 }),
         MusicEvent.changeVolume "0.8", MusicEvent.toggle true]).musicVolume =
        JSNum.num q ∧ 0 ≤ q ∧ q ≤ 1) :=
  ⟨by decide,
   (volume_in_range_for_ranged_inputs _ (by decide)).1⟩

end Homie
